import Mathlib

/-!
Verification of the configuration (de)serialization core of the
nianjia-registry repository (src/configuration/mod.rs).

The Rust code declares a tree of serde-derived types and two entry points
(parse_str, parse_file).  Its observable behaviour is the behaviour of the
serde derive macros, serde_yaml and humantime on those declarations, so this
development shallowly embeds that behaviour:

- Documents are modelled as an abstract YAML value tree (the Yaml type
  below).  The textual layer (yaml-rust parsing and emission of text) is
  abstracted away: a scalar carries its resolved shape, mapping keys are
  strings, and emission is modelled as producing the same value tree that
  re-parsing would reconstruct.  Everything above that layer - field
  defaulting, flattening, untagged and externally tagged enum resolution,
  the Duration string format - is modelled from the source.
- IEEE-754 binary64 values (the payload of Parameter::Double) are modelled
  up to their canonical shortest serialized text (the F64 type): serde_yaml
  emits a float with ryu, whose output re-parses to the identical bit
  pattern, so at the value-tree level a float round-trips as an identity.
  The only arithmetic fact of f64 used anywhere is that the derived
  PartialEq compares NaN as unequal to itself, which F64.beq models.
- Durations are modelled as std::time::Duration is: whole seconds plus
  sub-second nanoseconds.  The humantime duration grammar is embedded as a
  single-pass character state machine mirroring the humantime parser loop
  (number run with interleaved whitespace, unit run, fixed unit table,
  checked u64 arithmetic).
- Fallible deserialization returns Except DeErr; serde field lookup takes
  the first occurrence of a key (real serde additionally rejects a
  duplicate known field; that differs only on documents with duplicate
  keys, which well-formed YAML forbids).
-/

namespace NianjiaRegistry

/-- Model of an IEEE-754 binary64 value as it flows through serde_yaml,
identified by its canonical serialized text (ryu shortest form, or the
YAML specials .nan, .inf, -.inf).  serde_yaml parses a float scalar to the
f64 bits whose canonical text is stored here and re-emits exactly that
text, so parsing and emission are identities at this level. -/
structure F64 where
  text : String
deriving DecidableEq, Repr

/-- The NaN value: serde_yaml emits f64::NAN as .nan and parses .nan back
to f64::NAN. -/
def F64.nan : F64 := ⟨".nan"⟩

/-- Whether this value is the NaN value. -/
def F64.isNan (x : F64) : Bool := x.text == ".nan"

/-- Model of f64 PartialEq (IEEE equality): NaN compares unequal to
everything including itself; positive and negative zero compare equal;
otherwise two values are equal when their bit patterns (canonical texts)
coincide. -/
def F64.beq (a b : F64) : Bool :=
  !a.isNan && !b.isNan &&
    (a.text == b.text ||
      ((a.text == "0.0" || a.text == "-0.0") && (b.text == "0.0" || b.text == "-0.0")))

/-- Abstract YAML document tree, the input and output of the modelled
serde_yaml layer.  A scalar node carries its resolved shape: a plain
scalar that looks like a number, boolean or null resolves to the
corresponding constructor, and the str constructor covers quoted scalars
as well as plain scalars with no more specific resolution (this mirrors
how serde_yaml resolves a plain scalar when asked for an untyped value,
and the type-directed accessors below recover the raw text where the real
deserializer would).  Mapping keys are modelled as strings; int covers the
integer scalars within the i64/u64 window the model supports. -/
inductive Yaml where
  | null : Yaml
  | bool (b : Bool) : Yaml
  | int (n : Int) : Yaml
  | float (x : F64) : Yaml
  | str (s : String) : Yaml
  | seq (xs : List Yaml) : Yaml
  | map (kvs : List (String × Yaml)) : Yaml

/-- Deserialization errors of the modelled serde layer, distinguishing the
shapes of error serde and serde_yaml produce. -/
inductive DeErr where
  | missingField (name : String) : DeErr
  | invalidType (expected : String) : DeErr
  | invalidValue (msg : String) : DeErr
  | noVariant (enumName : String) : DeErr
  | untaggedNoMatch (enumName : String) : DeErr
  | custom (msg : String) : DeErr
  | outOfModel (what : String) : DeErr
deriving DecidableEq, Repr

/-! ## Duration: std::time::Duration wrapped by the configuration module -/

/-- Model of std::time::Duration: whole seconds (u64) and sub-second
nanoseconds (u32, below 10^9).  The numeric invariants are stated as
hypotheses where needed rather than baked into the type. -/
structure Duration where
  secs : Nat
  nanos : Nat
deriving DecidableEq, Repr

/-- std::time::Duration::new: carries nanoseconds of a full second into
the seconds component. -/
def Duration.new (secs nanos : Nat) : Duration :=
  ⟨secs + nanos / 1000000000, nanos % 1000000000⟩

/-- Duration::default in the source parses the text 1s with humantime and
unwraps; the result is one second and zero nanoseconds (established by
theorem duration_default_is_parse_1s below). -/
def Duration.default : Duration := ⟨1, 0⟩

/-! ### humantime duration grammar

humantime::Duration::from_str is a single pass over the characters:
a number run (digits, with interleaved whitespace skipped, accumulated
with checked u64 arithmetic), then a unit run (characters that are neither
digits nor whitespace), applied through a fixed unit table, repeated until
the input ends.  htLoop below mirrors that loop with an explicit mode. -/

/-- Errors of the humantime duration parser. -/
inductive HErr where
  | empty : HErr
  | numberExpected : HErr
  | numberOverflow : HErr
  | unknownUnit (u : String) : HErr
deriving DecidableEq, Repr

/-- The unit table of humantime (parse_unit): value of one unit as
(seconds, nanoseconds), with the checked multiplications of the source.
Returns an error for an unknown (or empty) unit. -/
def unitValue (n : Nat) (u : String) : Except HErr (Nat × Nat) :=
  match u with
  | "nanos" | "nsec" | "ns" => .ok (0, n)
  | "usec" | "us" =>
      if n * 1000 < 2 ^ 64 then .ok (0, n * 1000) else .error .numberOverflow
  | "millis" | "msec" | "ms" =>
      if n * 1000000 < 2 ^ 64 then .ok (0, n * 1000000) else .error .numberOverflow
  | "seconds" | "second" | "secs" | "sec" | "s" => .ok (n, 0)
  | "minutes" | "minute" | "min" | "mins" | "m" =>
      if n * 60 < 2 ^ 64 then .ok (n * 60, 0) else .error .numberOverflow
  | "hours" | "hour" | "hr" | "hrs" | "h" =>
      if n * 3600 < 2 ^ 64 then .ok (n * 3600, 0) else .error .numberOverflow
  | "days" | "day" | "d" =>
      if n * 86400 < 2 ^ 64 then .ok (n * 86400, 0) else .error .numberOverflow
  | "weeks" | "week" | "w" =>
      if n * 604800 < 2 ^ 64 then .ok (n * 604800, 0) else .error .numberOverflow
  | "months" | "month" | "M" =>
      if n * 2630016 < 2 ^ 64 then .ok (n * 2630016, 0) else .error .numberOverflow
  | "years" | "year" | "y" =>
      if n * 31557600 < 2 ^ 64 then .ok (n * 31557600, 0) else .error .numberOverflow
  | _ => .error (.unknownUnit u)

/-- humantime parse_unit applied to the running total: looks the unit up,
adds the nanosecond part to the running nanoseconds, carries whole seconds
when the nanoseconds exceed one second (the source tests with a strict
greater-than), then adds the seconds with a checked addition. -/
def applyUnit (cur : Nat × Nat) (n : Nat) (u : String) : Except HErr (Nat × Nat) := do
  let (secU, nsecU) ← unitValue n u
  let nsec := cur.2 + nsecU
  let (secU, nsec) :=
    if nsec > 1000000000 then (secU + nsec / 1000000000, nsec % 1000000000)
    else (secU, nsec)
  if secU + cur.1 < 2 ^ 64 then .ok (secU + cur.1, nsec) else .error .numberOverflow

/-- Mode of the humantime parsing loop: waiting for a number to start
(first distinguishes the very first number, whose absence is the Empty
error), inside a number run, or inside a unit run with the pending number
and the accumulated unit characters. -/
inductive HtMode where
  | expectNum (first : Bool) : HtMode
  | num (n : Nat) : HtMode
  | unitAcc (n : Nat) (u : List Char) : HtMode

/-- The humantime parsing loop over the remaining characters.  Mirrors the
control flow of humantime parse: whitespace is skipped while waiting for
and inside a number run; a digit inside a unit run applies the pending
unit and starts the next number; input ending inside a number run applies
an empty unit (an UnknownUnit error, as in the source). -/
def htLoop : List Char → HtMode → Nat × Nat → Except HErr (Nat × Nat)
  | [], .expectNum first, cur => if first then .error .empty else .ok cur
  | [], .num n, cur => do
      let cur2 ← applyUnit cur n ""
      .ok cur2
  | [], .unitAcc n u, cur => do
      let cur2 ← applyUnit cur n ⟨u⟩
      .ok cur2
  | c :: t, .expectNum first, cur =>
      if c.isDigit then htLoop t (.num (c.toNat - 48)) cur
      else if c.isWhitespace then htLoop t (.expectNum first) cur
      else .error .numberExpected
  | c :: t, .num n, cur =>
      if c.isDigit then
        let n2 := n * 10 + (c.toNat - 48)
        if n2 < 2 ^ 64 then htLoop t (.num n2) cur else .error .numberOverflow
      else if c.isWhitespace then htLoop t (.num n) cur
      else htLoop t (.unitAcc n [c]) cur
  | c :: t, .unitAcc n u, cur =>
      if c.isDigit then do
        let cur2 ← applyUnit cur n ⟨u⟩
        htLoop t (.num (c.toNat - 48)) cur2
      else if c.isWhitespace then do
        let cur2 ← applyUnit cur n ⟨u⟩
        htLoop t (.expectNum false) cur2
      else htLoop t (.unitAcc n (u ++ [c])) cur

/-- humantime::Duration::from_str: run the loop from the start state and
build a std Duration from the accumulated seconds and nanoseconds.  The
accumulated nanoseconds can equal one full second (the carry in
parse_unit fires only strictly above it), in which case Duration::new
carries; when that carry overflows u64 the real Duration::new aborts the
process, which is modelled as an error here since no value is produced
either way. -/
def humantimeFromStr (s : String) : Except HErr Duration := do
  let (sec, nsec) ← htLoop s.data (.expectNum true) (0, 0)
  if sec + nsec / 1000000000 < 2 ^ 64 then .ok (Duration.new sec nsec)
  else .error .numberOverflow

/-- DurationVisitor::visit_str: any humantime failure is collapsed into a
single custom serde error (the source formats one fixed message). -/
def Duration.visitStr (s : String) : Except DeErr Duration :=
  match humantimeFromStr s with
  | .error _ => .error (.custom "cannot parse the duration")
  | .ok d => .ok d

/-- Decimal digits of a natural number, most significant first, written
with explicit fuel so that the kernel can evaluate it (first argument is
the fuel, always at least the number plus one). -/
def natToDecAux : Nat → Nat → List Char
  | 0, _ => []
  | fuel + 1, n =>
      if n < 10 then [Nat.digitChar n]
      else natToDecAux fuel (n / 10) ++ [Nat.digitChar (n % 10)]

/-- Decimal rendering of a natural number (value of format with an
unsigned integer in Rust). -/
def natToDec (n : Nat) : String := ⟨natToDecAux (n + 1) n⟩

/-- Serialize for Duration: the exact text shape seconds, letter s, one
space, nanoseconds, letters ns - both components always present. -/
def Duration.serializeStr (d : Duration) : String :=
  natToDec d.secs ++ "s " ++ natToDec d.nanos ++ "ns"

/-! ## Association list machinery

BTreeMap is modelled as a list of key-value pairs kept sorted by key
(Rust String order is byte order, which agrees with the character order
of Lean String.lt on valid UTF-8).  Field lookup in a document mapping
takes the first occurrence of the key. -/

/-- First binding of a key in a (document order) mapping. -/
def lookupFirst {α : Type} : List (String × α) → String → Option α
  | [], _ => none
  | (k1, v) :: t, k => if k1 = k then some v else lookupFirst t k

/-- A Decidable instance for the string order that unfolds by computation
(the default instance of Mathlib is iterator-based and does not reduce). -/
def strDecLt (a b : String) : Decidable (a < b) :=
  decidable_of_iff (a.toList < b.toList) String.lt_iff_toList_lt.symm

/-- BTreeMap::insert: keeps the list sorted by key, replacing the value
when the key is already present. -/
def smapInsert {α : Type} : List (String × α) → String → α → List (String × α)
  | [], k, v => [(k, v)]
  | (k1, v1) :: t, k, v =>
      @ite _ (k < k1) (strDecLt k k1) ((k, v) :: (k1, v1) :: t)
        (if k = k1 then (k, v) :: t
         else (k1, v1) :: smapInsert t k v)

/-- BTreeMap::get. -/
def smapLookup {α : Type} : List (String × α) → String → Option α
  | [], _ => none
  | (k1, v) :: t, k => if k1 = k then some v else smapLookup t k

/-- Keys are strictly increasing (the BTreeMap representation invariant). -/
def smapSorted {α : Type} : List (String × α) → Bool
  | [] => true
  | [_] => true
  | (k1, _) :: (k2, v2) :: t =>
      @decide (k1 < k2) (strDecLt k1 k2) && smapSorted ((k2, v2) :: t)

/-- Derived PartialEq of BTreeMap: equal when the sorted sequences of
bindings are pointwise equal under the value comparison. -/
def smapBEq {α : Type} (f : α → α → Bool) : List (String × α) → List (String × α) → Bool
  | [], [] => true
  | (k1, v1) :: t1, (k2, v2) :: t2 => k1 == k2 && f v1 v2 && smapBEq f t1 t2
  | _, _ => false

/-! ## Generic deserialization helpers (the serde derive field protocol) -/

/-- A struct field without serde(default) and not of Option type: absent
means a missing-field error. -/
def reqField {α : Type} (kvs : List (String × Yaml)) (name : String)
    (p : Yaml → Except DeErr α) : Except DeErr α :=
  match lookupFirst kvs name with
  | some y => p y
  | none => .error (.missingField name)

/-- A struct field with serde(default): absent means the default value. -/
def defField {α : Type} (kvs : List (String × Yaml)) (name : String)
    (p : Yaml → Except DeErr α) (d : α) : Except DeErr α :=
  match lookupFirst kvs name with
  | some y => p y
  | none => .ok d

/-- A field of Option type: absent or null means none, any other value is
deserialized. -/
def optField {α : Type} (kvs : List (String × Yaml)) (name : String)
    (p : Yaml → Except DeErr α) : Except DeErr (Option α) :=
  match lookupFirst kvs name with
  | some .null => .ok none
  | some y => (p y).map some
  | none => .ok none

/-- Shared head of every derived struct deserializer: the node must be a
mapping. -/
def asMap (y : Yaml) (what : String) : Except DeErr (List (String × Yaml)) :=
  match y with
  | .map kvs => .ok kvs
  | _ => .error (.invalidType what)

/-- Decimal rendering of an i64 (value of format with a signed integer in
Rust). -/
def intToDec (n : Int) : String :=
  if n < 0 then "-" ++ natToDec n.natAbs else natToDec n.natAbs

/-- String deserialization: serde_yaml hands the raw scalar text to the
visitor whatever the scalar resolved to, so every scalar shape except
null yields its text. -/
def strFromYaml : Yaml → Except DeErr String
  | .str s => .ok s
  | .int n => .ok (intToDec n)
  | .float x => .ok x.text
  | .bool b => .ok (if b then "true" else "false")
  | _ => .error (.invalidType "a string")

/-- bool deserialization: only a scalar resolved as boolean is accepted. -/
def boolFromYaml : Yaml → Except DeErr Bool
  | .bool b => .ok b
  | _ => .error (.invalidType "a boolean")

/-- u32 deserialization: an integer scalar within the u32 range. -/
def u32FromYaml : Yaml → Except DeErr Nat
  | .int n =>
      if 0 ≤ n ∧ n < 2 ^ 32 then .ok n.toNat
      else .error (.invalidValue "u32 out of range")
  | _ => .error (.invalidType "an unsigned integer")

/-- i32 deserialization: an integer scalar within the i32 range. -/
def i32FromYaml : Yaml → Except DeErr Int
  | .int n =>
      if -(2 ^ 31) ≤ n ∧ n < 2 ^ 31 then .ok n
      else .error (.invalidValue "i32 out of range")
  | _ => .error (.invalidType "a signed integer")

/-- Duration deserialization (Deserialize for Duration in the source):
deserialize_str hands the raw scalar text to DurationVisitor. -/
def durationFromYaml : Yaml → Except DeErr Duration
  | .str s => Duration.visitStr s
  | .int n => Duration.visitStr (intToDec n)
  | .float x => Duration.visitStr x.text
  | .bool b => Duration.visitStr (if b then "true" else "false")
  | _ => .error (.invalidType "a string to represent the time duration.")

/-- Vec deserialization: a sequence node, elements in order. -/
def vecFromYaml {α : Type} (p : Yaml → Except DeErr α) : Yaml → Except DeErr (List α)
  | .seq xs => xs.mapM p
  | _ => .error (.invalidType "a sequence")

/-- The BTreeMap visitor loop: entries in document order, each value
deserialized then inserted (so a repeated key keeps the last binding). -/
def smapFromList {α : Type} (p : Yaml → Except DeErr α) :
    List (String × Yaml) → List (String × α) → Except DeErr (List (String × α))
  | [], acc => .ok acc
  | (k, y) :: t, acc => do
      let v ← p y
      smapFromList p t (smapInsert acc k v)

/-- BTreeMap deserialization from a mapping node. -/
def smapFromYaml {α : Type} (p : Yaml → Except DeErr α) : Yaml → Except DeErr (List (String × α))
  | .map kvs => smapFromList p kvs []
  | _ => .error (.invalidType "a map")

/-- Serialize an association list as a mapping node (BTreeMap serializes
its bindings in sorted order, which is the stored order). -/
def smapToYaml {α : Type} (s : α → Yaml) (m : List (String × α)) : Yaml :=
  .map (m.map fun kv => (kv.1, s kv.2))

/-! ## Parameter and Parameters (the polymorphic value layer) -/

/-- The untagged Parameter enum of the source: Integer(i64), Double(f64),
String, Boolean, Null, in that declaration order. -/
inductive Parameter where
  | Integer (n : Int) : Parameter
  | Double (x : F64) : Parameter
  | String (s : String) : Parameter
  | Boolean (b : Bool) : Parameter
  | Null : Parameter
deriving DecidableEq, Repr

/-- serde(untagged) resolution for Parameter: the buffered content of the
source node is tried against the variants in declaration order (Integer,
Double, String, Boolean, Null) and the first success wins.  An integer
scalar matches Integer when it fits in i64; a float scalar fails Integer
and matches Double; a string matches neither numeric variant and matches
String; a boolean matches Boolean; null matches only the unit variant
Null.  (An integer scalar beyond the i64 range is resolved by serde to
the Double variant through a u64 to f64 conversion, which lies outside
the float scope of this model.)  A sequence or mapping node matches no
variant. -/
def Parameter.fromYaml : Yaml → Except DeErr Parameter
  | .int n =>
      if -(2 ^ 63) ≤ n ∧ n < 2 ^ 63 then .ok (.Integer n)
      else .error (.outOfModel "integer scalar beyond i64")
  | .float x => .ok (.Double x)
  | .str s => .ok (.String s)
  | .bool b => .ok (.Boolean b)
  | .null => .ok .Null
  | _ => .error (.untaggedNoMatch "Parameter")

/-- Untagged serialization: each variant serializes as its natural scalar;
Null serializes as an explicit null. -/
def Parameter.toYaml : Parameter → Yaml
  | .Integer n => .int n
  | .Double x => .float x
  | .String s => .str s
  | .Boolean b => .bool b
  | .Null => .null

/-- Derived PartialEq for Parameter: same variant and equal payloads; the
Double payloads compare by f64 equality (so NaN is unequal to itself and
no numeric widening happens across variants). -/
def Parameter.beq : Parameter → Parameter → Bool
  | .Integer a, .Integer b => a == b
  | .Double a, .Double b => F64.beq a b
  | .String a, .String b => a == b
  | .Boolean a, .Boolean b => a == b
  | .Null, .Null => true
  | _, _ => false

/-- Parameters: a struct holding one flattened BTreeMap from keys to
Parameter, capturing every key of the source mapping. -/
structure Parameters where
  parameters : List (String × Parameter)
deriving DecidableEq, Repr

/-- Derived Default for Parameters: the empty bag. -/
def Parameters.default : Parameters := ⟨[]⟩

/-- Deserialize for Parameters: the flattened map collects every entry of
the mapping node, unknown keys included. -/
def Parameters.fromYaml (y : Yaml) : Except DeErr Parameters :=
  (smapFromYaml Parameter.fromYaml y).map Parameters.mk

/-- Serialize for Parameters: the flattened entries become the mapping. -/
def Parameters.toYaml (p : Parameters) : Yaml :=
  smapToYaml Parameter.toYaml p.parameters

/-- Derived PartialEq for Parameters. -/
def Parameters.beq (a b : Parameters) : Bool :=
  smapBEq Parameter.beq a.parameters b.parameters

/-! ## StorageMedia and Storage (the variant selection layer) -/

/-- The externally tagged StorageMedia enum with its serde renames:
filesystem and s3 carry an options map, inmemory carries nothing. -/
inductive StorageMedia where
  | Filesystem (options : List (String × Parameter)) : StorageMedia
  | S3 (options : List (String × Parameter)) : StorageMedia
  | InMemory : StorageMedia
deriving DecidableEq, Repr

/-- Default for StorageMedia: the filesystem variant with empty options. -/
def StorageMedia.default : StorageMedia := .Filesystem []

/-- The discriminator keys, in variant declaration order. -/
def storageMediaVariants : List String := ["filesystem", "s3", "inmemory"]

/-- Flattened-enum resolution (FlatMapDeserializer::deserialize_enum):
scan the leftover entries in document order for the first key naming a
variant; none found is an error; the matching entry selects the variant
and its value carries the payload (which must be null for the unit
variant inmemory). -/
def StorageMedia.fromFlat (leftover : List (String × Yaml)) : Except DeErr StorageMedia :=
  match leftover.find? (fun kv => storageMediaVariants.contains kv.1) with
  | none => .error (.noVariant "StorageMedia")
  | some (k, v) =>
      if k = "filesystem" then (smapFromYaml Parameter.fromYaml v).map .Filesystem
      else if k = "s3" then (smapFromYaml Parameter.fromYaml v).map .S3
      else
        match v with
        | .null => .ok .InMemory
        | _ => .error (.invalidType "unit")

/-- Flattened-enum serialization (FlatMapSerializer): one entry, keyed by
the variant name; the unit variant inmemory serializes its payload as
null. -/
def StorageMedia.toFlat : StorageMedia → String × Yaml
  | .Filesystem m => ("filesystem", smapToYaml Parameter.toYaml m)
  | .S3 m => ("s3", smapToYaml Parameter.toYaml m)
  | .InMemory => ("inmemory", .null)

/-- Derived PartialEq for StorageMedia. -/
def StorageMedia.beq : StorageMedia → StorageMedia → Bool
  | .Filesystem a, .Filesystem b => smapBEq Parameter.beq a b
  | .S3 a, .S3 b => smapBEq Parameter.beq a b
  | .InMemory, .InMemory => true
  | _, _ => false

/-! ## Section records

Every record below mirrors one derived struct of the source: the fields
in declaration order, the serde renames, serde(default) where declared
(defField), required fields (reqField), Option fields (optField).  The
model evaluates fields in declaration order while real serde follows
document order of the entries; the two differ only in which error is
reported when several entries are invalid, never in success or the value
produced.  Serialization lists every field in declaration order under its
serde name. -/

/-- struct Maintenance: both sub-bags are required when the section is
present. -/
structure Maintenance where
  uploadpurging : Parameters
  readonly : Parameters
deriving DecidableEq, Repr

def Maintenance.default : Maintenance := ⟨Parameters.default, Parameters.default⟩

def Maintenance.fromYaml (y : Yaml) : Except DeErr Maintenance := do
  let kvs ← asMap y "struct Maintenance"
  let up ← reqField kvs "uploadpurging" Parameters.fromYaml
  let ro ← reqField kvs "readonly" Parameters.fromYaml
  .ok ⟨up, ro⟩

def Maintenance.toYaml (v : Maintenance) : Yaml :=
  .map [("uploadpurging", v.uploadpurging.toYaml), ("readonly", v.readonly.toYaml)]

def Maintenance.beq (a b : Maintenance) : Bool :=
  Parameters.beq a.uploadpurging b.uploadpurging && Parameters.beq a.readonly b.readonly

/-- struct Cache: a newtype over Parameters. -/
structure Cache where
  inner : Parameters
deriving DecidableEq, Repr

def Cache.default : Cache := ⟨Parameters.default⟩

def Cache.fromYaml (y : Yaml) : Except DeErr Cache := (Parameters.fromYaml y).map Cache.mk

def Cache.toYaml (v : Cache) : Yaml := v.inner.toYaml

def Cache.beq (a b : Cache) : Bool := Parameters.beq a.inner b.inner

/-- struct Delete: a newtype over Parameters. -/
structure Delete where
  inner : Parameters
deriving DecidableEq, Repr

def Delete.default : Delete := ⟨Parameters.default⟩

def Delete.fromYaml (y : Yaml) : Except DeErr Delete := (Parameters.fromYaml y).map Delete.mk

def Delete.toYaml (v : Delete) : Yaml := v.inner.toYaml

def Delete.beq (a b : Delete) : Bool := Parameters.beq a.inner b.inner

/-- struct Redirect: a newtype over Parameters. -/
structure Redirect where
  inner : Parameters
deriving DecidableEq, Repr

def Redirect.default : Redirect := ⟨Parameters.default⟩

def Redirect.fromYaml (y : Yaml) : Except DeErr Redirect := (Parameters.fromYaml y).map Redirect.mk

def Redirect.toYaml (v : Redirect) : Yaml := v.inner.toYaml

def Redirect.beq (a b : Redirect) : Bool := Parameters.beq a.inner b.inner

/-- struct Storage: the flattened media plus four optional sub-sections.
The known field names are consumed first and every other entry is left,
in document order, for the flattened StorageMedia enum.  The source
writes serde(flatten, default) on media, but serde ignores the default
on a flattened field, so an absent discriminator is resolved by the
flattened enum (an error), not by the default. -/
structure Storage where
  media : StorageMedia
  maintenance : Option Maintenance
  cache : Option Cache
  delete : Option Delete
  redirect : Option Redirect
deriving DecidableEq, Repr

def Storage.default : Storage := ⟨StorageMedia.default, none, none, none, none⟩

def storageKnownFields : List String := ["maintenance", "cache", "delete", "redirect"]

def Storage.fromYaml (y : Yaml) : Except DeErr Storage := do
  let kvs ← asMap y "struct Storage"
  let maintenance ← optField kvs "maintenance" Maintenance.fromYaml
  let cache ← optField kvs "cache" Cache.fromYaml
  let delete ← optField kvs "delete" Delete.fromYaml
  let redirect ← optField kvs "redirect" Redirect.fromYaml
  let media ← StorageMedia.fromFlat
    (kvs.filter fun kv => !storageKnownFields.contains kv.1)
  .ok ⟨media, maintenance, cache, delete, redirect⟩

/-- Serialization of an Option field: None becomes an explicit null entry
(serde_yaml serializes None as null and the key stays present). -/
def optToYaml {α : Type} (s : α → Yaml) : Option α → Yaml
  | none => .null
  | some v => s v

def Storage.toYaml (v : Storage) : Yaml :=
  .map [v.media.toFlat,
        ("maintenance", optToYaml Maintenance.toYaml v.maintenance),
        ("cache", optToYaml Cache.toYaml v.cache),
        ("delete", optToYaml Delete.toYaml v.delete),
        ("redirect", optToYaml Redirect.toYaml v.redirect)]

def optBEq {α : Type} (f : α → α → Bool) : Option α → Option α → Bool
  | none, none => true
  | some a, some b => f a b
  | _, _ => false

def listBEq {α : Type} (f : α → α → Bool) : List α → List α → Bool
  | [], [] => true
  | a :: t1, b :: t2 => f a b && listBEq f t1 t2
  | _, _ => false

def Storage.beq (a b : Storage) : Bool :=
  StorageMedia.beq a.media b.media &&
  optBEq Maintenance.beq a.maintenance b.maintenance &&
  optBEq Cache.beq a.cache b.cache &&
  optBEq Delete.beq a.delete b.delete &&
  optBEq Redirect.beq a.redirect b.redirect

/-- struct AccessLog. -/
structure AccessLog where
  disabled : Bool
deriving DecidableEq, Repr

def AccessLog.default : AccessLog := ⟨false⟩

def AccessLog.fromYaml (y : Yaml) : Except DeErr AccessLog := do
  let kvs ← asMap y "struct AccessLog"
  let disabled ← defField kvs "disabled" boolFromYaml false
  .ok ⟨disabled⟩

def AccessLog.toYaml (v : AccessLog) : Yaml := .map [("disabled", .bool v.disabled)]

/-- struct Smtp. -/
structure Smtp where
  addr : String
  username : String
  password : String
  insecure : Bool
deriving DecidableEq, Repr

def Smtp.default : Smtp := ⟨"", "", "", false⟩

def Smtp.fromYaml (y : Yaml) : Except DeErr Smtp := do
  let kvs ← asMap y "struct Smtp"
  let addr ← defField kvs "addr" strFromYaml ""
  let username ← defField kvs "username" strFromYaml ""
  let password ← defField kvs "password" strFromYaml ""
  let insecure ← defField kvs "insecure" boolFromYaml false
  .ok ⟨addr, username, password, insecure⟩

def Smtp.toYaml (v : Smtp) : Yaml :=
  .map [("addr", .str v.addr), ("username", .str v.username),
        ("password", .str v.password), ("insecure", .bool v.insecure)]

/-- struct MailOptions (the source field from is written from_ here, the
word being reserved in this environment). -/
structure MailOptions where
  smtp : Smtp
  from_ : String
  to_ : List String
deriving DecidableEq, Repr

def MailOptions.default : MailOptions := ⟨Smtp.default, "", []⟩

def MailOptions.fromYaml (y : Yaml) : Except DeErr MailOptions := do
  let kvs ← asMap y "struct MailOptions"
  let smtp ← defField kvs "smtp" Smtp.fromYaml Smtp.default
  let from_ ← defField kvs "from" strFromYaml ""
  let to_ ← defField kvs "to" (vecFromYaml strFromYaml) []
  .ok ⟨smtp, from_, to_⟩

def MailOptions.toYaml (v : MailOptions) : Yaml :=
  .map [("smtp", v.smtp.toYaml), ("from", .str v.from_),
        ("to", .seq (v.to_.map .str))]

/-- struct LogHook (the source field _type, serde-renamed to type). -/
structure LogHook where
  disabled : Bool
  _type : String
  levels : List String
  mail_options : MailOptions
deriving DecidableEq, Repr

def LogHook.default : LogHook := ⟨false, "", [], MailOptions.default⟩

def LogHook.fromYaml (y : Yaml) : Except DeErr LogHook := do
  let kvs ← asMap y "struct LogHook"
  let disabled ← defField kvs "disabled" boolFromYaml false
  let t ← defField kvs "type" strFromYaml ""
  let levels ← defField kvs "levels" (vecFromYaml strFromYaml) []
  let mail_options ← defField kvs "mail_options" MailOptions.fromYaml MailOptions.default
  .ok ⟨disabled, t, levels, mail_options⟩

def LogHook.toYaml (v : LogHook) : Yaml :=
  .map [("disabled", .bool v.disabled), ("type", .str v._type),
        ("levels", .seq (v.levels.map .str)),
        ("mail_options", v.mail_options.toYaml)]

/-- struct Log: every field carries serde(default); the struct itself has
no Default derive and is a required field of Configuration. -/
structure Log where
  access_log : AccessLog
  level : String
  formatter : String
  fields : List (String × String)
  hooks : List LogHook
deriving DecidableEq, Repr

def Log.fromYaml (y : Yaml) : Except DeErr Log := do
  let kvs ← asMap y "struct Log"
  let access_log ← defField kvs "access_log" AccessLog.fromYaml AccessLog.default
  let level ← defField kvs "level" strFromYaml ""
  let formatter ← defField kvs "formatter" strFromYaml ""
  let fields ← defField kvs "fields" (smapFromYaml strFromYaml) []
  let hooks ← defField kvs "hooks" (vecFromYaml LogHook.fromYaml) []
  .ok ⟨access_log, level, formatter, fields, hooks⟩

def Log.toYaml (v : Log) : Yaml :=
  .map [("access_log", v.access_log.toYaml), ("level", .str v.level),
        ("formatter", .str v.formatter), ("fields", smapToYaml .str v.fields),
        ("hooks", .seq (v.hooks.map LogHook.toYaml))]

/-- struct Middleware. -/
structure Middleware where
  name : String
  disable : Bool
  options : Parameters
deriving DecidableEq, Repr

def Middleware.default : Middleware := ⟨"", false, Parameters.default⟩

def Middleware.fromYaml (y : Yaml) : Except DeErr Middleware := do
  let kvs ← asMap y "struct Middleware"
  let name ← reqField kvs "name" strFromYaml
  let disable ← defField kvs "disable" boolFromYaml false
  let options ← reqField kvs "options" Parameters.fromYaml
  .ok ⟨name, disable, options⟩

def Middleware.toYaml (v : Middleware) : Yaml :=
  .map [("name", .str v.name), ("disable", .bool v.disable),
        ("options", v.options.toYaml)]

def Middleware.beq (a b : Middleware) : Bool :=
  a.name == b.name && a.disable == b.disable && Parameters.beq a.options b.options

/-- struct BugsnagReporting (field API_key, serde-renamed apikey). -/
structure BugsnagReporting where
  API_key : String
  release_stage : String
  endpoint : String
deriving DecidableEq, Repr

def BugsnagReporting.default : BugsnagReporting := ⟨"", "", ""⟩

def BugsnagReporting.fromYaml (y : Yaml) : Except DeErr BugsnagReporting := do
  let kvs ← asMap y "struct BugsnagReporting"
  let k ← reqField kvs "apikey" strFromYaml
  let rs ← defField kvs "releasestage" strFromYaml ""
  let ep ← defField kvs "endpoint" strFromYaml ""
  .ok ⟨k, rs, ep⟩

def BugsnagReporting.toYaml (v : BugsnagReporting) : Yaml :=
  .map [("apikey", .str v.API_key), ("releasestage", .str v.release_stage),
        ("endpoint", .str v.endpoint)]

/-- struct NewRelicReporting (licensekey rename; name and verbose are
required). -/
structure NewRelicReporting where
  license_key : String
  name : String
  verbose : Bool
deriving DecidableEq, Repr

def NewRelicReporting.default : NewRelicReporting := ⟨"", "", false⟩

def NewRelicReporting.fromYaml (y : Yaml) : Except DeErr NewRelicReporting := do
  let kvs ← asMap y "struct NewRelicReporting"
  let lk ← reqField kvs "licensekey" strFromYaml
  let name ← reqField kvs "name" strFromYaml
  let verbose ← reqField kvs "verbose" boolFromYaml
  .ok ⟨lk, name, verbose⟩

def NewRelicReporting.toYaml (v : NewRelicReporting) : Yaml :=
  .map [("licensekey", .str v.license_key), ("name", .str v.name),
        ("verbose", .bool v.verbose)]

/-- struct Reporting: bugsnag is required when the section is present,
newrelic carries serde(default). -/
structure Reporting where
  bugsnag : BugsnagReporting
  new_relic : NewRelicReporting
deriving DecidableEq, Repr

def Reporting.default : Reporting := ⟨BugsnagReporting.default, NewRelicReporting.default⟩

def Reporting.fromYaml (y : Yaml) : Except DeErr Reporting := do
  let kvs ← asMap y "struct Reporting"
  let b ← reqField kvs "bugsnag" BugsnagReporting.fromYaml
  let nr ← defField kvs "newrelic" NewRelicReporting.fromYaml NewRelicReporting.default
  .ok ⟨b, nr⟩

def Reporting.toYaml (v : Reporting) : Yaml :=
  .map [("bugsnag", v.bugsnag.toYaml), ("newrelic", v.new_relic.toYaml)]

/-- struct LetsEncrypt: cachefile and email are required. -/
structure LetsEncrypt where
  cache_file : String
  email : String
  hosts : List String
deriving DecidableEq, Repr

def LetsEncrypt.default : LetsEncrypt := ⟨"", "", []⟩

def LetsEncrypt.fromYaml (y : Yaml) : Except DeErr LetsEncrypt := do
  let kvs ← asMap y "struct LetsEncrypt"
  let cf ← reqField kvs "cachefile" strFromYaml
  let email ← reqField kvs "email" strFromYaml
  let hosts ← defField kvs "hosts" (vecFromYaml strFromYaml) []
  .ok ⟨cf, email, hosts⟩

def LetsEncrypt.toYaml (v : LetsEncrypt) : Yaml :=
  .map [("cachefile", .str v.cache_file), ("email", .str v.email),
        ("hosts", .seq (v.hosts.map .str))]

/-- struct Tls: certificate, key and clientcas are required. -/
structure Tls where
  certificate : String
  key : String
  client_CAs : List String
  minimum_tls : String
  lets_encrypt : LetsEncrypt
deriving DecidableEq, Repr

def Tls.default : Tls := ⟨"", "", [], "", LetsEncrypt.default⟩

def Tls.fromYaml (y : Yaml) : Except DeErr Tls := do
  let kvs ← asMap y "struct Tls"
  let cert ← reqField kvs "certificate" strFromYaml
  let key ← reqField kvs "key" strFromYaml
  let cas ← reqField kvs "clientcas" (vecFromYaml strFromYaml)
  let mt ← defField kvs "minimumtls" strFromYaml ""
  let le ← defField kvs "letsencrypt" LetsEncrypt.fromYaml LetsEncrypt.default
  .ok ⟨cert, key, cas, mt, le⟩

def Tls.toYaml (v : Tls) : Yaml :=
  .map [("certificate", .str v.certificate), ("key", .str v.key),
        ("clientcas", .seq (v.client_CAs.map .str)),
        ("minimumtls", .str v.minimum_tls),
        ("letsencrypt", v.lets_encrypt.toYaml)]

/-- struct Prometheus. -/
structure Prometheus where
  enabled : Bool
  path : String
deriving DecidableEq, Repr

def Prometheus.default : Prometheus := ⟨false, ""⟩

def Prometheus.fromYaml (y : Yaml) : Except DeErr Prometheus := do
  let kvs ← asMap y "struct Prometheus"
  let e ← defField kvs "enabled" boolFromYaml false
  let p ← defField kvs "path" strFromYaml ""
  .ok ⟨e, p⟩

def Prometheus.toYaml (v : Prometheus) : Yaml :=
  .map [("enabled", .bool v.enabled), ("path", .str v.path)]

/-- struct Debug. -/
structure Debug where
  addr : String
  prometheus : Prometheus
deriving DecidableEq, Repr

def Debug.default : Debug := ⟨"", Prometheus.default⟩

def Debug.fromYaml (y : Yaml) : Except DeErr Debug := do
  let kvs ← asMap y "struct Debug"
  let a ← defField kvs "addr" strFromYaml ""
  let p ← defField kvs "prometheus" Prometheus.fromYaml Prometheus.default
  .ok ⟨a, p⟩

def Debug.toYaml (v : Debug) : Yaml :=
  .map [("addr", .str v.addr), ("prometheus", v.prometheus.toYaml)]

/-- struct Http2: disabled is required when the section is present. -/
structure Http2 where
  disabled : Bool
deriving DecidableEq, Repr

def Http2.default : Http2 := ⟨false⟩

def Http2.fromYaml (y : Yaml) : Except DeErr Http2 := do
  let kvs ← asMap y "struct Http2"
  let d ← reqField kvs "disabled" boolFromYaml
  .ok ⟨d⟩

def Http2.toYaml (v : Http2) : Yaml := .map [("disabled", .bool v.disabled)]

/-- struct Http (the source field prefix is written prefix_ here, the word
being reserved in this environment): headers is required when the section
is present, everything else carries serde(default). -/
structure Http where
  addr : String
  net : String
  host : String
  prefix_ : String
  secret : String
  relative_urls : Bool
  drain_timeout : Duration
  tls : Tls
  headers : List (String × List String)
  debug : Debug
  http2 : Http2
deriving DecidableEq, Repr

def Http.default : Http :=
  ⟨"", "", "", "", "", false, Duration.default, Tls.default, [], Debug.default, Http2.default⟩

def Http.fromYaml (y : Yaml) : Except DeErr Http := do
  let kvs ← asMap y "struct Http"
  let addr ← defField kvs "addr" strFromYaml ""
  let net ← defField kvs "net" strFromYaml ""
  let host ← defField kvs "host" strFromYaml ""
  let pre ← defField kvs "prefix" strFromYaml ""
  let secret ← defField kvs "secret" strFromYaml ""
  let ru ← defField kvs "relativeurls" boolFromYaml false
  let dt ← defField kvs "draintimeout" durationFromYaml Duration.default
  let tls ← defField kvs "tls" Tls.fromYaml Tls.default
  let headers ← reqField kvs "headers" (smapFromYaml (vecFromYaml strFromYaml))
  let debug ← defField kvs "debug" Debug.fromYaml Debug.default
  let http2 ← defField kvs "http2" Http2.fromYaml Http2.default
  .ok ⟨addr, net, host, pre, secret, ru, dt, tls, headers, debug, http2⟩

def Http.toYaml (v : Http) : Yaml :=
  .map [("addr", .str v.addr), ("net", .str v.net), ("host", .str v.host),
        ("prefix", .str v.prefix_), ("secret", .str v.secret),
        ("relativeurls", .bool v.relative_urls),
        ("draintimeout", .str v.drain_timeout.serializeStr),
        ("tls", v.tls.toYaml),
        ("headers", smapToYaml (fun ss => .seq (ss.map .str)) v.headers),
        ("debug", v.debug.toYaml), ("http2", v.http2.toYaml)]

/-- struct Events (serde-renamed events at its use site):
include_references is required when the section is present. -/
structure Events where
  include_references : Bool
deriving DecidableEq, Repr

def Events.default : Events := ⟨false⟩

def Events.fromYaml (y : Yaml) : Except DeErr Events := do
  let kvs ← asMap y "struct Events"
  let ir ← reqField kvs "include_references" boolFromYaml
  .ok ⟨ir⟩

def Events.toYaml (v : Events) : Yaml :=
  .map [("include_references", .bool v.include_references)]

/-- struct Ignore: actions is required when the section is present. -/
structure Ignore where
  media_types : List String
  actions : List String
deriving DecidableEq, Repr

def Ignore.default : Ignore := ⟨[], []⟩

def Ignore.fromYaml (y : Yaml) : Except DeErr Ignore := do
  let kvs ← asMap y "struct Ignore"
  let mt ← defField kvs "mediatypes" (vecFromYaml strFromYaml) []
  let a ← reqField kvs "actions" (vecFromYaml strFromYaml)
  .ok ⟨mt, a⟩

def Ignore.toYaml (v : Ignore) : Yaml :=
  .map [("mediatypes", .seq (v.media_types.map .str)),
        ("actions", .seq (v.actions.map .str))]

/-- struct EndPoint: name, url, headers and ignoredmediatypes are
required. -/
structure EndPoint where
  name : String
  disabled : Bool
  url : String
  headers : List (String × List String)
  timeout : Duration
  threshold : Nat
  backoff : Duration
  ignore_media_type : List String
  ignore : Ignore
deriving DecidableEq, Repr

def EndPoint.default : EndPoint :=
  ⟨"", false, "", [], Duration.default, 0, Duration.default, [], Ignore.default⟩

def EndPoint.fromYaml (y : Yaml) : Except DeErr EndPoint := do
  let kvs ← asMap y "struct EndPoint"
  let name ← reqField kvs "name" strFromYaml
  let disabled ← defField kvs "disabled" boolFromYaml false
  let url ← reqField kvs "url" strFromYaml
  let headers ← reqField kvs "headers" (smapFromYaml (vecFromYaml strFromYaml))
  let timeout ← defField kvs "timeout" durationFromYaml Duration.default
  let threshold ← defField kvs "threshold" u32FromYaml 0
  let backoff ← defField kvs "backoff" durationFromYaml Duration.default
  let imt ← reqField kvs "ignoredmediatypes" (vecFromYaml strFromYaml)
  let ignore ← defField kvs "ignore" Ignore.fromYaml Ignore.default
  .ok ⟨name, disabled, url, headers, timeout, threshold, backoff, imt, ignore⟩

def EndPoint.toYaml (v : EndPoint) : Yaml :=
  .map [("name", .str v.name), ("disabled", .bool v.disabled),
        ("url", .str v.url),
        ("headers", smapToYaml (fun ss => .seq (ss.map .str)) v.headers),
        ("timeout", .str v.timeout.serializeStr),
        ("threshold", .int v.threshold),
        ("backoff", .str v.backoff.serializeStr),
        ("ignoredmediatypes", .seq (v.ignore_media_type.map .str)),
        ("ignore", v.ignore.toYaml)]

/-- struct Notifications: endpoints is required when the section is
present. -/
structure Notifications where
  event_config : Events
  endpoints : List EndPoint
deriving DecidableEq, Repr

def Notifications.default : Notifications := ⟨Events.default, []⟩

def Notifications.fromYaml (y : Yaml) : Except DeErr Notifications := do
  let kvs ← asMap y "struct Notifications"
  let ec ← defField kvs "events" Events.fromYaml Events.default
  let eps ← reqField kvs "endpoints" (vecFromYaml EndPoint.fromYaml)
  .ok ⟨ec, eps⟩

def Notifications.toYaml (v : Notifications) : Yaml :=
  .map [("events", v.event_config.toYaml),
        ("endpoints", .seq (v.endpoints.map EndPoint.toYaml))]

/-- struct Pool: all three fields are required when the section is
present. -/
structure Pool where
  max_idle : Nat
  max_active : Nat
  idle_timeout : Duration
deriving DecidableEq, Repr

def Pool.default : Pool := ⟨0, 0, Duration.default⟩

def Pool.fromYaml (y : Yaml) : Except DeErr Pool := do
  let kvs ← asMap y "struct Pool"
  let mi ← reqField kvs "maxidle" u32FromYaml
  let ma ← reqField kvs "maxactive" u32FromYaml
  let it ← reqField kvs "idletimeout" durationFromYaml
  .ok ⟨mi, ma, it⟩

def Pool.toYaml (v : Pool) : Yaml :=
  .map [("maxidle", .int v.max_idle), ("maxactive", .int v.max_active),
        ("idletimeout", .str v.idle_timeout.serializeStr)]

/-- struct Redis: addr, password, db and pool are required. -/
structure Redis where
  addr : String
  password : String
  db : Nat
  dial_timeout : Duration
  read_timeout : Duration
  write_timeout : Duration
  pool : Pool
deriving DecidableEq, Repr

def Redis.default : Redis :=
  ⟨"", "", 0, Duration.default, Duration.default, Duration.default, Pool.default⟩

def Redis.fromYaml (y : Yaml) : Except DeErr Redis := do
  let kvs ← asMap y "struct Redis"
  let addr ← reqField kvs "addr" strFromYaml
  let password ← reqField kvs "password" strFromYaml
  let db ← reqField kvs "db" u32FromYaml
  let dt ← defField kvs "dialtimeout" durationFromYaml Duration.default
  let rt ← defField kvs "readtimeout" durationFromYaml Duration.default
  let wt ← defField kvs "writetimeout" durationFromYaml Duration.default
  let pool ← reqField kvs "pool" Pool.fromYaml
  .ok ⟨addr, password, db, dt, rt, wt, pool⟩

def Redis.toYaml (v : Redis) : Yaml :=
  .map [("addr", .str v.addr), ("password", .str v.password),
        ("db", .int v.db),
        ("dialtimeout", .str v.dial_timeout.serializeStr),
        ("readtimeout", .str v.read_timeout.serializeStr),
        ("writetimeout", .str v.write_timeout.serializeStr),
        ("pool", v.pool.toYaml)]

/-- struct FileChecker: every field carries serde(default). -/
structure FileChecker where
  interval : Duration
  file : String
  threshold : Nat
deriving DecidableEq, Repr

def FileChecker.default : FileChecker := ⟨Duration.default, "", 0⟩

def FileChecker.fromYaml (y : Yaml) : Except DeErr FileChecker := do
  let kvs ← asMap y "struct FileChecker"
  let i ← defField kvs "interval" durationFromYaml Duration.default
  let f ← defField kvs "file" strFromYaml ""
  let t ← defField kvs "threshold" u32FromYaml 0
  .ok ⟨i, f, t⟩

def FileChecker.toYaml (v : FileChecker) : Yaml :=
  .map [("interval", .str v.interval.serializeStr), ("file", .str v.file),
        ("threshold", .int v.threshold)]

/-- struct HttpChecker: statuscode and headers are required. -/
structure HttpChecker where
  timeout : Duration
  status_code : Int
  interval : Duration
  url : String
  headers : List (String × List String)
  threshold : Nat
deriving DecidableEq, Repr

def HttpChecker.default : HttpChecker :=
  ⟨Duration.default, 0, Duration.default, "", [], 0⟩

def HttpChecker.fromYaml (y : Yaml) : Except DeErr HttpChecker := do
  let kvs ← asMap y "struct HttpChecker"
  let timeout ← defField kvs "timeout" durationFromYaml Duration.default
  let sc ← reqField kvs "statuscode" i32FromYaml
  let interval ← defField kvs "interval" durationFromYaml Duration.default
  let url ← defField kvs "url" strFromYaml ""
  let headers ← reqField kvs "headers" (smapFromYaml (vecFromYaml strFromYaml))
  let threshold ← defField kvs "threshold" u32FromYaml 0
  .ok ⟨timeout, sc, interval, url, headers, threshold⟩

def HttpChecker.toYaml (v : HttpChecker) : Yaml :=
  .map [("timeout", .str v.timeout.serializeStr),
        ("statuscode", .int v.status_code),
        ("interval", .str v.interval.serializeStr), ("url", .str v.url),
        ("headers", smapToYaml (fun ss => .seq (ss.map .str)) v.headers),
        ("threshold", .int v.threshold)]

/-- struct TcpChecker: every field carries serde(default). -/
structure TcpChecker where
  timeout : Duration
  interval : Duration
  add : String
  threshold : Nat
deriving DecidableEq, Repr

def TcpChecker.default : TcpChecker := ⟨Duration.default, Duration.default, "", 0⟩

def TcpChecker.fromYaml (y : Yaml) : Except DeErr TcpChecker := do
  let kvs ← asMap y "struct TcpChecker"
  let timeout ← defField kvs "timeout" durationFromYaml Duration.default
  let interval ← defField kvs "interval" durationFromYaml Duration.default
  let add ← defField kvs "add" strFromYaml ""
  let threshold ← defField kvs "threshold" u32FromYaml 0
  .ok ⟨timeout, interval, add, threshold⟩

def TcpChecker.toYaml (v : TcpChecker) : Yaml :=
  .map [("timeout", .str v.timeout.serializeStr),
        ("interval", .str v.interval.serializeStr), ("add", .str v.add),
        ("threshold", .int v.threshold)]

/-- struct StorageDriver: every field carries serde(default). -/
structure StorageDriver where
  enabled : Bool
  interval : Duration
  threshold : Nat
deriving DecidableEq, Repr

def StorageDriver.default : StorageDriver := ⟨false, Duration.default, 0⟩

def StorageDriver.fromYaml (y : Yaml) : Except DeErr StorageDriver := do
  let kvs ← asMap y "struct StorageDriver"
  let e ← defField kvs "enabled" boolFromYaml false
  let i ← defField kvs "interval" durationFromYaml Duration.default
  let t ← defField kvs "threshold" u32FromYaml 0
  .ok ⟨e, i, t⟩

def StorageDriver.toYaml (v : StorageDriver) : Yaml :=
  .map [("enabled", .bool v.enabled),
        ("interval", .str v.interval.serializeStr),
        ("threshold", .int v.threshold)]

/-- struct Health (the source field stroage_driver, serde-renamed
storagedriver, is required when the section is present). -/
structure Health where
  file_checkers : List FileChecker
  http_checkers : List HttpChecker
  tcp_checkers : List TcpChecker
  stroage_driver : StorageDriver
deriving DecidableEq, Repr

def Health.default : Health := ⟨[], [], [], StorageDriver.default⟩

def Health.fromYaml (y : Yaml) : Except DeErr Health := do
  let kvs ← asMap y "struct Health"
  let fc ← defField kvs "file" (vecFromYaml FileChecker.fromYaml) []
  let hc ← defField kvs "http" (vecFromYaml HttpChecker.fromYaml) []
  let tc ← defField kvs "tcp" (vecFromYaml TcpChecker.fromYaml) []
  let sd ← reqField kvs "storagedriver" StorageDriver.fromYaml
  .ok ⟨fc, hc, tc, sd⟩

def Health.toYaml (v : Health) : Yaml :=
  .map [("file", .seq (v.file_checkers.map FileChecker.toYaml)),
        ("http", .seq (v.http_checkers.map HttpChecker.toYaml)),
        ("tcp", .seq (v.tcp_checkers.map TcpChecker.toYaml)),
        ("storagedriver", v.stroage_driver.toYaml)]

/-- struct Proxy: all three fields are required when the section is
present. -/
structure Proxy where
  remote_url : String
  username : String
  password : String
deriving DecidableEq, Repr

def Proxy.default : Proxy := ⟨"", "", ""⟩

def Proxy.fromYaml (y : Yaml) : Except DeErr Proxy := do
  let kvs ← asMap y "struct Proxy"
  let r ← reqField kvs "remoteurl" strFromYaml
  let u ← reqField kvs "username" strFromYaml
  let p ← reqField kvs "password" strFromYaml
  .ok ⟨r, u, p⟩

def Proxy.toYaml (v : Proxy) : Yaml :=
  .map [("remoteurl", .str v.remote_url), ("username", .str v.username),
        ("password", .str v.password)]

/-- struct Schema1: both fields carry serde(default). -/
structure Schema1 where
  trust_key : String
  enabled : Bool
deriving DecidableEq, Repr

def Schema1.default : Schema1 := ⟨"", false⟩

def Schema1.fromYaml (y : Yaml) : Except DeErr Schema1 := do
  let kvs ← asMap y "struct Schema1"
  let tk ← defField kvs "signingkeyfile" strFromYaml ""
  let e ← defField kvs "enabled" boolFromYaml false
  .ok ⟨tk, e⟩

def Schema1.toYaml (v : Schema1) : Yaml :=
  .map [("signingkeyfile", .str v.trust_key), ("enabled", .bool v.enabled)]

/-- struct Compatibility: schema1 is required when the section is
present. -/
structure Compatibility where
  schema1 : Schema1
deriving DecidableEq, Repr

def Compatibility.default : Compatibility := ⟨Schema1.default⟩

def Compatibility.fromYaml (y : Yaml) : Except DeErr Compatibility := do
  let kvs ← asMap y "struct Compatibility"
  let s ← reqField kvs "schema1" Schema1.fromYaml
  .ok ⟨s⟩

def Compatibility.toYaml (v : Compatibility) : Yaml :=
  .map [("schema1", v.schema1.toYaml)]

/-- struct Urls: allow and deny are required when the section is
present. -/
structure Urls where
  allow : List String
  deny : List String
deriving DecidableEq, Repr

def Urls.default : Urls := ⟨[], []⟩

def Urls.fromYaml (y : Yaml) : Except DeErr Urls := do
  let kvs ← asMap y "struct Urls"
  let a ← reqField kvs "allow" (vecFromYaml strFromYaml)
  let d ← reqField kvs "deny" (vecFromYaml strFromYaml)
  .ok ⟨a, d⟩

def Urls.toYaml (v : Urls) : Yaml :=
  .map [("allow", .seq (v.allow.map .str)), ("deny", .seq (v.deny.map .str))]

/-- struct Manifest: urls is required when the section is present. -/
structure Manifest where
  urls : Urls
deriving DecidableEq, Repr

def Manifest.default : Manifest := ⟨Urls.default⟩

def Manifest.fromYaml (y : Yaml) : Except DeErr Manifest := do
  let kvs ← asMap y "struct Manifest"
  let u ← reqField kvs "urls" Urls.fromYaml
  .ok ⟨u⟩

def Manifest.toYaml (v : Manifest) : Yaml := .map [("urls", v.urls.toYaml)]

/-- struct Validation: enabled and manifests are required; the source
serde-renames the disabled field to signingkeyfile. -/
structure Validation where
  enabled : Bool
  disabled : Bool
  manifests : Manifest
deriving DecidableEq, Repr

def Validation.default : Validation := ⟨false, false, Manifest.default⟩

def Validation.fromYaml (y : Yaml) : Except DeErr Validation := do
  let kvs ← asMap y "struct Validation"
  let e ← reqField kvs "enabled" boolFromYaml
  let d ← defField kvs "signingkeyfile" boolFromYaml false
  let m ← reqField kvs "manifests" Manifest.fromYaml
  .ok ⟨e, d, m⟩

def Validation.toYaml (v : Validation) : Yaml :=
  .map [("enabled", .bool v.enabled), ("signingkeyfile", .bool v.disabled),
        ("manifests", v.manifests.toYaml)]

/-- struct Repository: classes is required when the section is present. -/
structure Repository where
  classes : List String
deriving DecidableEq, Repr

def Repository.default : Repository := ⟨[]⟩

def Repository.fromYaml (y : Yaml) : Except DeErr Repository := do
  let kvs ← asMap y "struct Repository"
  let c ← reqField kvs "classes" (vecFromYaml strFromYaml)
  .ok ⟨c⟩

def Repository.toYaml (v : Repository) : Yaml :=
  .map [("classes", .seq (v.classes.map .str))]

/-- struct Policy: repository is required when the section is present. -/
structure Policy where
  repository : Repository
deriving DecidableEq, Repr

def Policy.default : Policy := ⟨Repository.default⟩

def Policy.fromYaml (y : Yaml) : Except DeErr Policy := do
  let kvs ← asMap y "struct Policy"
  let r ← reqField kvs "repository" Repository.fromYaml
  .ok ⟨r⟩

def Policy.toYaml (v : Policy) : Yaml := .map [("repository", v.repository.toYaml)]

/-- struct Configuration: version and log are required (they carry no
serde(default) and are not Option), every other top-level section carries
serde(default). -/
structure Configuration where
  version : String
  log : Log
  storage : Storage
  auth : List (String × Parameters)
  middleware : List (String × List Middleware)
  reporting : Reporting
  http : Http
  notifications : Notifications
  redis : Redis
  health : Health
  proxy : Proxy
  compatibility : Compatibility
  validation : Validation
  policy : Policy
deriving DecidableEq, Repr

def Configuration.fromYaml (y : Yaml) : Except DeErr Configuration := do
  let kvs ← asMap y "struct Configuration"
  let version ← reqField kvs "version" strFromYaml
  let log ← reqField kvs "log" Log.fromYaml
  let storage ← defField kvs "storage" Storage.fromYaml Storage.default
  let auth ← defField kvs "auth" (smapFromYaml Parameters.fromYaml) []
  let middleware ← defField kvs "middleware"
    (smapFromYaml (vecFromYaml Middleware.fromYaml)) []
  let reporting ← defField kvs "reporting" Reporting.fromYaml Reporting.default
  let http ← defField kvs "http" Http.fromYaml Http.default
  let notifications ← defField kvs "notifications" Notifications.fromYaml
    Notifications.default
  let redis ← defField kvs "redis" Redis.fromYaml Redis.default
  let health ← defField kvs "health" Health.fromYaml Health.default
  let proxy ← defField kvs "proxy" Proxy.fromYaml Proxy.default
  let compatibility ← defField kvs "compatibility" Compatibility.fromYaml
    Compatibility.default
  let validation ← defField kvs "validation" Validation.fromYaml Validation.default
  let policy ← defField kvs "policy" Policy.fromYaml Policy.default
  .ok ⟨version, log, storage, auth, middleware, reporting, http,
       notifications, redis, health, proxy, compatibility, validation, policy⟩

def Configuration.toYaml (v : Configuration) : Yaml :=
  .map [("version", .str v.version),
        ("log", v.log.toYaml),
        ("storage", v.storage.toYaml),
        ("auth", smapToYaml Parameters.toYaml v.auth),
        ("middleware",
          smapToYaml (fun ms => .seq (ms.map Middleware.toYaml)) v.middleware),
        ("reporting", v.reporting.toYaml),
        ("http", v.http.toYaml),
        ("notifications", v.notifications.toYaml),
        ("redis", v.redis.toYaml),
        ("health", v.health.toYaml),
        ("proxy", v.proxy.toYaml),
        ("compatibility", v.compatibility.toYaml),
        ("validation", v.validation.toYaml),
        ("policy", v.policy.toYaml)]

/-- Derived PartialEq for Configuration: every field equal, with the f64
semantics threaded through the fields that can contain a Parameter (the
other fields contain only integers, booleans, strings and Durations, for
which the derived PartialEq coincides with structural equality). -/
def Configuration.beq (a b : Configuration) : Bool :=
  a.version == b.version && decide (a.log = b.log) &&
  Storage.beq a.storage b.storage &&
  smapBEq Parameters.beq a.auth b.auth &&
  smapBEq (listBEq Middleware.beq) a.middleware b.middleware &&
  decide (a.reporting = b.reporting) && decide (a.http = b.http) &&
  decide (a.notifications = b.notifications) && decide (a.redis = b.redis) &&
  decide (a.health = b.health) && decide (a.proxy = b.proxy) &&
  decide (a.compatibility = b.compatibility) &&
  decide (a.validation = b.validation) && decide (a.policy = b.policy)

/-- parse_str of the source: serde_yaml::from_str into Configuration,
modelled at the document tree level. -/
def parse_str (d : Yaml) : Except DeErr Configuration := Configuration.fromYaml d

/-- serde_yaml::to_string of a parsed Configuration (the serialization
direction of the round-trip test), modelled at the document tree level. -/
def serializeConfiguration (c : Configuration) : Yaml := Configuration.toYaml c

/-- First discriminator entry of a storage section, in document order
(the scan FlatMapDeserializer performs). -/
def firstDiscr (kvs : List (String × Yaml)) : Option (String × Yaml) :=
  kvs.find? (fun kv => storageMediaVariants.contains kv.1)

/-- The serde rename of a StorageMedia variant. -/
def StorageMedia.discrKey : StorageMedia → String
  | .Filesystem _ => "filesystem"
  | .S3 _ => "s3"
  | .InMemory => "inmemory"

/-- The strict key order of the sorted association lists (Rust BTreeMap
iteration order). -/
def keyLt {α : Type} (a b : String × α) : Prop := a.1 < b.1

/-- A minimal parseable document: version plus an empty log section. -/
def minimalOkDoc : Yaml := .map [("version", .str "0.1"), ("log", .map [])]

/-- The configuration the minimal document parses to: both required
fields from the document, everything else defaulted. -/
def minimalOkConfig : Configuration :=
  ⟨"0.1", ⟨AccessLog.default, "", "", [], []⟩, Storage.default, [], [],
   Reporting.default, Http.default, Notifications.default, Redis.default,
   Health.default, Proxy.default, Compatibility.default, Validation.default,
   Policy.default⟩

/-- A document carrying a NaN float inside an auth Parameters bag. -/
def nanDoc : Yaml :=
  .map [("version", .str "0.1"), ("log", .map []),
        ("auth", .map [("x", .map [("k", .float F64.nan)])])]

/-- The configuration nanDoc parses to. -/
def nanConfig : Configuration :=
  ⟨"0.1", ⟨AccessLog.default, "", "", [], []⟩, Storage.default,
   [("x", ⟨[("k", .Double F64.nan)]⟩)], [],
   Reporting.default, Http.default, Notifications.default, Redis.default,
   Health.default, Proxy.default, Compatibility.default, Validation.default,
   Policy.default⟩

/-! # Theorems

General machinery first (inversion principles for Except and the serde
field helpers, round-trip lemmas layer by layer), then the claim
theorems. -/

theorem ebind_eq_ok {ε α β : Type} {x : Except ε α} {f : α → Except ε β} {b : β} :
    (x >>= f) = .ok b ↔ ∃ a, x = .ok a ∧ f a = .ok b := by
  cases x <;> simp [Bind.bind, Except.bind]

theorem emap_eq_ok {ε α β : Type} {x : Except ε α} {f : α → β} {b : β} :
    (Except.map f x) = .ok b ↔ ∃ a, x = .ok a ∧ f a = b := by
  cases x <;> simp [Except.map]

theorem ebind_ok {ε α β : Type} (a : α) (f : α → Except ε β) :
    ((Except.ok a : Except ε α) >>= f) = f a := rfl

theorem reqField_ok {α : Type} {kvs : List (String × Yaml)} {n : String}
    {p : Yaml → Except DeErr α} {a : α} (h : reqField kvs n p = .ok a) :
    ∃ y, lookupFirst kvs n = some y ∧ p y = .ok a := by
  unfold reqField at h
  split at h
  · next y hy => exact ⟨y, hy, h⟩
  · exact absurd h (by simp)

theorem defField_ok {α : Type} {kvs : List (String × Yaml)} {n : String}
    {p : Yaml → Except DeErr α} {d a : α} (h : defField kvs n p d = .ok a) :
    (∃ y, lookupFirst kvs n = some y ∧ p y = .ok a) ∨ a = d := by
  unfold defField at h
  split at h
  · next y hy => exact .inl ⟨y, hy, h⟩
  · exact .inr (Except.ok.inj h).symm

theorem optField_ok {α : Type} {kvs : List (String × Yaml)} {n : String}
    {p : Yaml → Except DeErr α} {o : Option α} (h : optField kvs n p = .ok o) :
    o = none ∨ ∃ y a, p y = .ok a ∧ o = some a := by
  unfold optField at h
  split at h
  · exact .inl (Except.ok.inj h).symm
  · next y hy hnn =>
      obtain ⟨a, ha, rfl⟩ := emap_eq_ok.mp h
      exact .inr ⟨y, a, ha, rfl⟩
  · exact .inl (Except.ok.inj h).symm

theorem optField_emit {α : Type} {kvs : List (String × Yaml)} {n : String}
    {p : Yaml → Except DeErr α} {s : α → Yaml} {o : Option α}
    (hlk : lookupFirst kvs n = some (optToYaml s o))
    (hmap : ∀ w, ∃ l, s w = Yaml.map l)
    (hrt : ∀ w, o = some w → p (s w) = .ok w) :
    optField kvs n p = .ok o := by
  cases o with
  | none => simp [optField, hlk, optToYaml]
  | some w =>
      obtain ⟨l, hl⟩ := hmap w
      have hw := hrt w rfl
      rw [hl] at hw
      simp [optField, hlk, optToYaml, hl, hw, Except.map]

theorem strFromYaml_str (s : String) : strFromYaml (.str s) = .ok s := rfl

theorem boolFromYaml_bool (b : Bool) : boolFromYaml (.bool b) = .ok b := rfl

theorem u32FromYaml_bound {y : Yaml} {n : Nat} (h : u32FromYaml y = .ok n) :
    n < 2 ^ 32 := by
  cases y <;> simp [u32FromYaml] at h
  next m =>
    split at h
    · next hc => injection h with h2; omega
    · exact absurd h (by simp)

theorem u32FromYaml_int {n : Nat} (h : n < 2 ^ 32) :
    u32FromYaml (.int (n : Int)) = .ok n := by
  simp only [u32FromYaml]
  rw [if_pos (by omega)]
  simp

theorem u32_rt {y : Yaml} {n : Nat} (h : u32FromYaml y = .ok n) :
    u32FromYaml (.int (n : Int)) = .ok n :=
  u32FromYaml_int (u32FromYaml_bound h)

theorem i32FromYaml_bound {y : Yaml} {n : Int} (h : i32FromYaml y = .ok n) :
    -(2 ^ 31) ≤ n ∧ n < 2 ^ 31 := by
  cases y <;> simp [i32FromYaml] at h
  next m =>
    split at h
    · next hc => injection h with h2; omega
    · exact absurd h (by simp)

theorem i32FromYaml_int {n : Int} (h1 : -(2 ^ 31) ≤ n) (h2 : n < 2 ^ 31) :
    i32FromYaml (.int n) = .ok n := by
  simp only [i32FromYaml]
  rw [if_pos ⟨h1, h2⟩]

theorem i32_rt {y : Yaml} {n : Int} (h : i32FromYaml y = .ok n) :
    i32FromYaml (.int n) = .ok n :=
  i32FromYaml_int (i32FromYaml_bound h).1 (i32FromYaml_bound h).2

theorem vec_ok_mem {α : Type} {p : Yaml → Except DeErr α} {y : Yaml} {l : List α}
    (h : vecFromYaml p y = .ok l) : ∀ a ∈ l, ∃ y0, p y0 = .ok a := by
  cases y <;> try exact Except.noConfusion h
  next xs =>
    simp only [vecFromYaml] at h
    induction xs generalizing l with
    | nil =>
        simp only [List.mapM_nil] at h
        obtain rfl : [] = l := Except.ok.inj h
        simp
    | cons x t ih =>
        rw [List.mapM_cons] at h
        obtain ⟨b, hb, h⟩ := ebind_eq_ok.mp h
        obtain ⟨bs, hbs, h⟩ := ebind_eq_ok.mp h
        obtain rfl : b :: bs = l := Except.ok.inj h
        intro a ha
        rcases List.mem_cons.mp ha with rfl | ha2
        · exact ⟨x, hb⟩
        · exact ih hbs a ha2

theorem vec_emit_mem {α : Type} {p : Yaml → Except DeErr α} {s : α → Yaml}
    {l : List α} (h : ∀ a ∈ l, p (s a) = .ok a) :
    vecFromYaml p (.seq (l.map s)) = .ok l := by
  simp only [vecFromYaml]
  induction l with
  | nil => rfl
  | cons a t ih =>
      simp only [List.map_cons, List.mapM_cons]
      rw [h a (by simp), ebind_ok, ih (fun b hb => h b (by simp [hb])), ebind_ok]
      rfl

theorem vec_rt {α : Type} {p : Yaml → Except DeErr α} {s : α → Yaml} {y : Yaml}
    {l : List α} (hsub : ∀ y0 a, p y0 = .ok a → p (s a) = .ok a)
    (h : vecFromYaml p y = .ok l) :
    vecFromYaml p (.seq (l.map s)) = .ok l :=
  vec_emit_mem fun a ha =>
    let ⟨y0, h0⟩ := vec_ok_mem h a ha
    hsub y0 a h0

theorem smapInsert_mem {α : Type} {m : List (String × α)} {k : String} {v : α}
    {b : String × α} (hb : b ∈ smapInsert m k v) : b = (k, v) ∨ b ∈ m := by
  induction m with
  | nil => simpa [smapInsert] using hb
  | cons a t ih =>
      obtain ⟨k1, v1⟩ := a
      simp only [smapInsert] at hb
      split at hb
      · exact (List.mem_cons.mp hb).imp id id
      · split at hb
        · rcases List.mem_cons.mp hb with rfl | h2
          · exact .inl rfl
          · exact .inr (List.mem_cons_of_mem _ h2)
        · rcases List.mem_cons.mp hb with rfl | h2
          · exact .inr (List.mem_cons_self _ _)
          · exact (ih h2).imp id (List.mem_cons_of_mem _)

theorem smapInsert_pairwise {α : Type} {m : List (String × α)} {k : String}
    {v : α} (h : List.Pairwise keyLt m) :
    List.Pairwise keyLt (smapInsert m k v) := by
  induction m with
  | nil => simp [smapInsert, keyLt]
  | cons a t ih =>
      obtain ⟨k1, v1⟩ := a
      obtain ⟨ha, ht⟩ := List.pairwise_cons.mp h
      simp only [smapInsert]
      split
      · next hlt =>
          refine List.pairwise_cons.mpr ⟨?_, h⟩
          intro b hb
          rcases List.mem_cons.mp hb with rfl | hbt
          · exact hlt
          · exact lt_trans hlt (ha b hbt)
      · split
        · next hne heq =>
            refine List.pairwise_cons.mpr ⟨?_, ht⟩
            intro b hb
            have : keyLt (k1, v1) b := ha b hb
            simpa [keyLt, heq] using this
        · next hne hne2 =>
            refine List.pairwise_cons.mpr ⟨?_, ih ht⟩
            intro b hb
            have hk1k : k1 < k := by
              rcases lt_trichotomy k k1 with h1 | h1 | h1
              · exact absurd h1 hne
              · exact absurd h1 hne2
              · exact h1
            rcases smapInsert_mem hb with rfl | hbt
            · exact hk1k
            · exact ha b hbt

theorem smapInsert_append {α : Type} {m : List (String × α)} {k : String}
    {v : α} (h : ∀ b ∈ m, b.1 < k) : smapInsert m k v = m ++ [(k, v)] := by
  induction m with
  | nil => rfl
  | cons a t ih =>
      obtain ⟨k1, v1⟩ := a
      have hak : k1 < k := h (k1, v1) (by simp)
      simp only [smapInsert]
      rw [if_neg (fun hlt : k < k1 => lt_irrefl k1 (lt_trans hak hlt)),
          if_neg (fun heq : k = k1 => lt_irrefl k1 (heq ▸ hak)),
          ih (fun b hb => h b (by simp [hb]))]
      simp

theorem smapFromList_pairwise {α : Type} {p : Yaml → Except DeErr α} :
    ∀ {kvs : List (String × Yaml)} {acc m : List (String × α)},
      smapFromList p kvs acc = .ok m →
      List.Pairwise keyLt acc → List.Pairwise keyLt m := by
  intro kvs
  induction kvs with
  | nil =>
      intro acc m h hp
      obtain rfl : acc = m := Except.ok.inj h
      exact hp
  | cons a t ih =>
      intro acc m h hp
      obtain ⟨k0, y0⟩ := a
      simp only [smapFromList] at h
      obtain ⟨v, _, h⟩ := ebind_eq_ok.mp h
      exact ih h (smapInsert_pairwise hp)

theorem smapFromList_vals {α : Type} {p : Yaml → Except DeErr α} (Q : α → Prop) :
    ∀ {kvs : List (String × Yaml)} {acc m : List (String × α)},
      smapFromList p kvs acc = .ok m →
      (∀ kv ∈ acc, Q kv.2) → (∀ y a, p y = .ok a → Q a) →
      ∀ kv ∈ m, Q kv.2 := by
  intro kvs
  induction kvs with
  | nil =>
      intro acc m h hacc _
      obtain rfl : acc = m := Except.ok.inj h
      exact hacc
  | cons a t ih =>
      intro acc m h hacc hq
      obtain ⟨k0, y0⟩ := a
      simp only [smapFromList] at h
      obtain ⟨v, hv, h⟩ := ebind_eq_ok.mp h
      refine ih h ?_ hq
      intro kv hkv
      rcases smapInsert_mem hkv with rfl | hin
      · exact hq y0 v hv
      · exact hacc kv hin

theorem smapFromList_emit {α : Type} {p : Yaml → Except DeErr α} {s : α → Yaml} :
    ∀ {m : List (String × α)} (acc : List (String × α)),
      List.Pairwise keyLt (acc ++ m) →
      (∀ kv ∈ m, p (s kv.2) = .ok kv.2) →
      smapFromList p (m.map fun kv => (kv.1, s kv.2)) acc = .ok (acc ++ m) := by
  intro m
  induction m with
  | nil => intro acc _ _; simp [smapFromList]
  | cons a t ih =>
      intro acc hp hr
      obtain ⟨k, v⟩ := a
      simp only [List.map_cons, smapFromList]
      rw [hr (k, v) (by simp), ebind_ok]
      have hcross : ∀ b ∈ acc, b.1 < k := by
        intro b hb
        have := (List.pairwise_append.mp hp).2.2 b hb (k, v) (by simp)
        exact this
      rw [smapInsert_append hcross]
      have hp2 : List.Pairwise keyLt ((acc ++ [(k, v)]) ++ t) := by
        simpa using hp
      rw [ih (acc ++ [(k, v)]) hp2 (fun kv hkv => hr kv (by simp [hkv]))]
      simp

theorem smap_ok_shape {α : Type} {p : Yaml → Except DeErr α} {y : Yaml}
    {m : List (String × α)} (h : smapFromYaml p y = .ok m) :
    List.Pairwise keyLt m ∧ ∀ kv ∈ m, ∃ y0, p y0 = .ok kv.2 := by
  cases y <;> try exact Except.noConfusion h
  next kvs =>
    simp only [smapFromYaml] at h
    refine ⟨smapFromList_pairwise h (by simp), ?_⟩
    exact smapFromList_vals (fun a => ∃ y0, p y0 = .ok a) h (by simp)
      (fun y0 a ha => ⟨y0, ha⟩)

theorem smap_rt {α : Type} {p : Yaml → Except DeErr α} {s : α → Yaml} {y : Yaml}
    {m : List (String × α)}
    (hsub : ∀ y0 a, p y0 = .ok a → p (s a) = .ok a)
    (h : smapFromYaml p y = .ok m) :
    smapFromYaml p (smapToYaml s m) = .ok m := by
  obtain ⟨hp, hv⟩ := smap_ok_shape h
  simp only [smapToYaml, smapFromYaml]
  have := smapFromList_emit [] (by simpa using hp)
    (fun kv hkv => (hv kv hkv).elim fun y0 h0 => hsub y0 kv.2 h0)
  simpa using this

theorem digitChar_facts {n : Nat} (h : n < 10) :
    (Nat.digitChar n).isDigit = true ∧ (Nat.digitChar n).isWhitespace = false ∧
      (Nat.digitChar n).toNat - 48 = n := by
  interval_cases n <;> refine ⟨by decide, by decide, by decide⟩

theorem natToDecAux_chars :
    ∀ fuel n : Nat, ∀ c ∈ natToDecAux fuel n,
      c.isDigit = true ∧ c.isWhitespace = false ∧ c.toNat - 48 < 10 := by
  intro fuel
  induction fuel with
  | zero => intro n c hc; simp [natToDecAux] at hc
  | succ f ih =>
      intro n c hc
      simp only [natToDecAux] at hc
      split at hc
      · next h =>
          simp only [List.mem_singleton] at hc
          subst hc
          obtain ⟨h1, h2, h3⟩ := digitChar_facts h
          exact ⟨h1, h2, by omega⟩
      · next h =>
          rcases List.mem_append.mp hc with h1 | h2
          · exact ih _ c h1
          · simp only [List.mem_singleton] at h2
            subst h2
            obtain ⟨g1, g2, g3⟩ := digitChar_facts (Nat.mod_lt n (by norm_num))
            exact ⟨g1, g2, by omega⟩

theorem natToDecAux_ne_nil (f n : Nat) : natToDecAux (f + 1) n ≠ [] := by
  simp only [natToDecAux]
  split <;> simp

theorem htLoop_digits :
    ∀ (fuel n acc : Nat) (rest : List Char) (cur : Nat × Nat),
      n < fuel →
      acc * 10 ^ (natToDecAux fuel n).length + n < 2 ^ 64 →
      htLoop (natToDecAux fuel n ++ rest) (.num acc) cur =
        htLoop rest (.num (acc * 10 ^ (natToDecAux fuel n).length + n)) cur := by
  intro fuel
  induction fuel with
  | zero => intro n acc rest cur h; exact absurd h (Nat.not_lt_zero n)
  | succ f ih =>
      intro n acc rest cur hn hb
      by_cases h10 : n < 10
      · obtain ⟨hd1, _, hd3⟩ := digitChar_facts h10
        simp only [natToDecAux, if_pos h10] at hb ⊢
        simp only [List.length_singleton] at hb ⊢
        simp only [List.singleton_append, htLoop, hd1, if_true, hd3]
        rw [if_pos (by omega : acc * 10 + n < 2 ^ 64)]
        have h1 : acc * 10 + n = acc * 10 ^ 1 + n := by ring
        rw [h1]
        rfl
      · simp only [natToDecAux, if_neg h10] at hb ⊢
        rw [List.append_assoc]
        have hlen : (natToDecAux f (n / 10) ++ [Nat.digitChar (n % 10)]).length
            = (natToDecAux f (n / 10)).length + 1 := by simp
        rw [hlen] at hb
        rw [hlen]
        simp only [List.singleton_append]
        have hn10 : n / 10 < f := by omega
        have hmono : 10 * (acc * 10 ^ (natToDecAux f (n / 10)).length + n / 10)
            ≤ acc * 10 ^ ((natToDecAux f (n / 10)).length + 1) + n := by
          rw [pow_succ, ← mul_assoc]
          have h2 : n / 10 * 10 ≤ n := Nat.div_mul_le_self n 10
          omega
        have hb1 : acc * 10 ^ (natToDecAux f (n / 10)).length + n / 10 < 2 ^ 64 := by
          omega
        rw [ih (n / 10) acc (Nat.digitChar (n % 10) :: rest) cur hn10 hb1]
        obtain ⟨gd1, _, gd3⟩ := digitChar_facts (Nat.mod_lt n (by norm_num))
        simp only [htLoop, gd1, if_true, gd3]
        have hXval : (acc * 10 ^ (natToDecAux f (n / 10)).length + n / 10) * 10 + n % 10
            = acc * 10 ^ ((natToDecAux f (n / 10)).length + 1) + n := by
          rw [pow_succ, ← mul_assoc]
          have := Nat.div_add_mod n 10
          omega
        rw [hXval, if_pos hb]

theorem htLoop_expect_digits (n : Nat) (rest : List Char) (cur : Nat × Nat)
    (first : Bool) (hb : n < 2 ^ 64) :
    htLoop (natToDecAux (n + 1) n ++ rest) (.expectNum first) cur =
      htLoop rest (.num n) cur := by
  obtain ⟨c, cs, hcons⟩ :=
    List.exists_cons_of_ne_nil (natToDecAux_ne_nil n n)
  have hmem : c ∈ natToDecAux (n + 1) n := by rw [hcons]; exact List.mem_cons_self c cs
  obtain ⟨hc1, _, hc3⟩ := natToDecAux_chars (n + 1) n c hmem
  have h0 : htLoop (natToDecAux (n + 1) n ++ rest) (.expectNum first) cur
      = htLoop (natToDecAux (n + 1) n ++ rest) (.num 0) cur := by
    rw [hcons]
    simp only [List.cons_append, htLoop, hc1, if_true]
    rw [if_pos (by omega : 0 * 10 + (c.toNat - 48) < 2 ^ 64)]
    norm_num
  rw [h0, htLoop_digits (n + 1) n 0 rest cur (by omega) (by simpa using hb)]
  norm_num

theorem applyUnit_sec {n : Nat} (h : n < 2 ^ 64) :
    applyUnit (0, 0) n (String.mk ['s']) = .ok (n, 0) := by
  simp only [applyUnit, unitValue, ebind_ok]
  norm_num
  exact fun hge => absurd hge (by omega)

theorem applyUnit_ns {sec n : Nat} (hn : n < 1000000000) (hs : sec < 2 ^ 64) :
    applyUnit (sec, 0) n (String.mk ['n', 's']) = .ok (sec, n) := by
  simp only [applyUnit, unitValue, ebind_ok]
  rw [if_neg (by omega : ¬ ((0 : Nat) + n > 1000000000))]
  norm_num
  exact fun hge => absurd hge (by omega)

theorem htLoop_serialized (secs nanos : Nat) (h1 : nanos < 1000000000)
    (h2 : secs < 2 ^ 64) :
    htLoop (natToDecAux (secs + 1) secs ++
        ('s' :: ' ' :: (natToDecAux (nanos + 1) nanos ++ ['n', 's'])))
      (.expectNum true) (0, 0) = .ok (secs, nanos) := by
  rw [htLoop_expect_digits secs _ _ _ h2]
  show (do
      let cur2 ← applyUnit (0, 0) secs (String.mk ['s'])
      htLoop (natToDecAux (nanos + 1) nanos ++ ['n', 's']) (.expectNum false) cur2)
    = .ok (secs, nanos)
  rw [applyUnit_sec h2, ebind_ok]
  rw [htLoop_expect_digits nanos _ _ _ (by omega : nanos < 2 ^ 64)]
  show (do
      let cur2 ← applyUnit (secs, 0) nanos (String.mk ['n', 's'])
      Except.ok cur2) = .ok (secs, nanos)
  rw [applyUnit_ns h1 h2, ebind_ok]

theorem humantime_serialize_parse {d : Duration} (h1 : d.nanos < 1000000000)
    (h2 : d.secs < 2 ^ 64) :
    humantimeFromStr d.serializeStr = .ok d := by
  obtain ⟨secs, nanos⟩ := d
  simp only [Duration.secs] at h2
  simp only [Duration.nanos] at h1
  have hdata : (Duration.serializeStr ⟨secs, nanos⟩).data
      = natToDecAux (secs + 1) secs ++
          ('s' :: ' ' :: (natToDecAux (nanos + 1) nanos ++ ['n', 's'])) := by
    have hs : ("s " : String).data = ['s', ' '] := rfl
    have hns : ("ns" : String).data = ['n', 's'] := rfl
    simp [Duration.serializeStr, natToDec, String.data_append, hs, hns]
  simp only [humantimeFromStr, hdata]
  rw [htLoop_serialized secs nanos h1 h2, ebind_ok]
  rw [if_pos (by omega : secs + nanos / 1000000000 < 2 ^ 64)]
  simp [Duration.new, Nat.div_eq_of_lt h1, Nat.mod_eq_of_lt h1]

theorem humantimeFromStr_wf {s : String} {d : Duration}
    (h : humantimeFromStr s = .ok d) :
    d.nanos < 1000000000 ∧ d.secs < 2 ^ 64 := by
  simp only [humantimeFromStr] at h
  obtain ⟨⟨sec, nsec⟩, _, h⟩ := ebind_eq_ok.mp h
  split at h
  · next hc =>
      obtain rfl : Duration.new sec nsec = d := Except.ok.inj h
      refine ⟨by simp [Duration.new]; omega, by simpa [Duration.new] using hc⟩
  · exact absurd h (by simp)

theorem duration_serialize_parse {d : Duration} (h1 : d.nanos < 1000000000)
    (h2 : d.secs < 2 ^ 64) :
    durationFromYaml (.str d.serializeStr) = .ok d := by
  simp only [durationFromYaml, Duration.visitStr, humantime_serialize_parse h1 h2]

theorem duration_rt {y : Yaml} {d : Duration} (h : durationFromYaml y = .ok d) :
    durationFromYaml (.str d.serializeStr) = .ok d := by
  have hw : ∃ s, humantimeFromStr s = .ok d := by
    cases y <;> simp only [durationFromYaml, Duration.visitStr] at h <;>
      try exact Except.noConfusion h
    all_goals
      split at h
      · exact absurd h (by simp)
      · next hp => exact ⟨_, (Except.ok.inj h) ▸ hp⟩
  obtain ⟨s, hs⟩ := hw
  obtain ⟨hb1, hb2⟩ := humantimeFromStr_wf hs
  exact duration_serialize_parse hb1 hb2

theorem Parameter_rt {y : Yaml} {a : Parameter} (h : Parameter.fromYaml y = .ok a) :
    Parameter.fromYaml a.toYaml = .ok a := by
  cases y with
  | int n =>
      simp only [Parameter.fromYaml] at h
      split at h
      · next hc =>
          obtain rfl : Parameter.Integer n = a := Except.ok.inj h
          simp only [Parameter.toYaml, Parameter.fromYaml]
          rw [if_pos hc]
      · exact absurd h (by simp)
  | float x => obtain rfl : Parameter.Double x = a := Except.ok.inj h; rfl
  | str s => obtain rfl : Parameter.String s = a := Except.ok.inj h; rfl
  | bool b => obtain rfl : Parameter.Boolean b = a := Except.ok.inj h; rfl
  | null => obtain rfl : Parameter.Null = a := Except.ok.inj h; rfl
  | seq xs => exact Except.noConfusion h
  | map kvs => exact Except.noConfusion h

theorem paramMap_rt {y : Yaml} {m : List (String × Parameter)}
    (h : smapFromYaml Parameter.fromYaml y = .ok m) :
    smapFromYaml Parameter.fromYaml (smapToYaml Parameter.toYaml m) = .ok m :=
  smap_rt (fun _ _ ha => Parameter_rt ha) h

theorem Parameters_rt {y : Yaml} {p : Parameters} (h : Parameters.fromYaml y = .ok p) :
    Parameters.fromYaml p.toYaml = .ok p := by
  obtain ⟨m, hm, rfl⟩ := emap_eq_ok.mp h
  simp only [Parameters.toYaml, Parameters.fromYaml]
  rw [paramMap_rt hm]
  rfl

theorem Cache_rt {y : Yaml} {c : Cache} (h : Cache.fromYaml y = .ok c) :
    Cache.fromYaml (Cache.toYaml c) = .ok c := by
  obtain ⟨p, hp, rfl⟩ := emap_eq_ok.mp h
  simp only [Cache.toYaml, Cache.fromYaml]
  rw [Parameters_rt hp]
  rfl

theorem Delete_rt {y : Yaml} {c : Delete} (h : Delete.fromYaml y = .ok c) :
    Delete.fromYaml (Delete.toYaml c) = .ok c := by
  obtain ⟨p, hp, rfl⟩ := emap_eq_ok.mp h
  simp only [Delete.toYaml, Delete.fromYaml]
  rw [Parameters_rt hp]
  rfl

theorem Redirect_rt {y : Yaml} {c : Redirect} (h : Redirect.fromYaml y = .ok c) :
    Redirect.fromYaml (Redirect.toYaml c) = .ok c := by
  obtain ⟨p, hp, rfl⟩ := emap_eq_ok.mp h
  simp only [Redirect.toYaml, Redirect.fromYaml]
  rw [Parameters_rt hp]
  rfl

theorem Maintenance_rt {y : Yaml} {v : Maintenance} (h : Maintenance.fromYaml y = .ok v) :
    Maintenance.fromYaml (Maintenance.toYaml v) = .ok v := by
  unfold Maintenance.fromYaml at h
  obtain ⟨kvs, _, h⟩ := ebind_eq_ok.mp h
  obtain ⟨a1, h1, h⟩ := ebind_eq_ok.mp h
  obtain ⟨a2, h2, h⟩ := ebind_eq_ok.mp h
  obtain rfl : (⟨a1, a2⟩ : Maintenance) = v := Except.ok.inj h
  obtain ⟨y1, _, hp1⟩ := reqField_ok h1
  obtain ⟨y2, _, hp2⟩ := reqField_ok h2
  simp [Maintenance.toYaml, Maintenance.fromYaml, asMap, reqField, lookupFirst,
        Parameters_rt hp1, Parameters_rt hp2, ebind_ok]

theorem StorageMedia_rt {leftover : List (String × Yaml)} {m : StorageMedia}
    (h : StorageMedia.fromFlat leftover = .ok m) :
    StorageMedia.fromFlat [m.toFlat] = .ok m := by
  unfold StorageMedia.fromFlat at h
  split at h
  · exact absurd h (by simp)
  · next kv k v hfind =>
      have hk := List.find?_some hfind
      by_cases hf : k = "filesystem"
      · subst hf
        rw [if_pos rfl] at h
        obtain ⟨mm, hmm, rfl⟩ := emap_eq_ok.mp h
        simp only [StorageMedia.toFlat, StorageMedia.fromFlat, List.find?,
                   storageMediaVariants]
        norm_num
        rw [paramMap_rt hmm]
        rfl
      · by_cases hs : k = "s3"
        · subst hs
          rw [if_neg (by decide), if_pos rfl] at h
          obtain ⟨mm, hmm, rfl⟩ := emap_eq_ok.mp h
          simp only [StorageMedia.toFlat, StorageMedia.fromFlat, List.find?,
                     storageMediaVariants]
          norm_num
          rw [paramMap_rt hmm]
          rfl
        · have hi : k = "inmemory" := by
            simp [storageMediaVariants, List.contains] at hk
            tauto
          subst hi
          rw [if_neg (by decide), if_neg (by decide)] at h
          split at h
          · obtain rfl : StorageMedia.InMemory = m := Except.ok.inj h
            rfl
          · exact absurd h (by simp)

theorem vecStr_emit (l : List String) :
    vecFromYaml strFromYaml (.seq (l.map .str)) = .ok l :=
  vec_emit_mem fun _ _ => rfl

theorem smapStr_rt {y : Yaml} {m : List (String × String)}
    (h : smapFromYaml strFromYaml y = .ok m) :
    smapFromYaml strFromYaml (smapToYaml .str m) = .ok m :=
  smap_rt (fun _ _ _ => rfl) h

theorem header_rt {y : Yaml} {m : List (String × List String)}
    (h : smapFromYaml (vecFromYaml strFromYaml) y = .ok m) :
    smapFromYaml (vecFromYaml strFromYaml)
      (smapToYaml (fun ss => .seq (ss.map .str)) m) = .ok m :=
  smap_rt (fun _ a _ => vecStr_emit a) h

theorem AccessLog_rt {y : Yaml} {v : AccessLog} (h : AccessLog.fromYaml y = .ok v) :
    AccessLog.fromYaml (AccessLog.toYaml v) = .ok v := by rfl

theorem Smtp_rt {y : Yaml} {v : Smtp} (h : Smtp.fromYaml y = .ok v) :
    Smtp.fromYaml (Smtp.toYaml v) = .ok v := by rfl

theorem Prometheus_rt {y : Yaml} {v : Prometheus} (h : Prometheus.fromYaml y = .ok v) :
    Prometheus.fromYaml (Prometheus.toYaml v) = .ok v := by rfl

theorem Debug_rt {y : Yaml} {v : Debug} (h : Debug.fromYaml y = .ok v) :
    Debug.fromYaml (Debug.toYaml v) = .ok v := by rfl

theorem Http2_rt {y : Yaml} {v : Http2} (h : Http2.fromYaml y = .ok v) :
    Http2.fromYaml (Http2.toYaml v) = .ok v := by rfl

theorem Events_rt {y : Yaml} {v : Events} (h : Events.fromYaml y = .ok v) :
    Events.fromYaml (Events.toYaml v) = .ok v := by rfl

theorem Schema1_rt {y : Yaml} {v : Schema1} (h : Schema1.fromYaml y = .ok v) :
    Schema1.fromYaml (Schema1.toYaml v) = .ok v := by rfl

theorem Proxy_rt {y : Yaml} {v : Proxy} (h : Proxy.fromYaml y = .ok v) :
    Proxy.fromYaml (Proxy.toYaml v) = .ok v := by rfl

theorem BugsnagReporting_rt {y : Yaml} {v : BugsnagReporting}
    (h : BugsnagReporting.fromYaml y = .ok v) :
    BugsnagReporting.fromYaml (BugsnagReporting.toYaml v) = .ok v := by rfl

theorem NewRelicReporting_rt {y : Yaml} {v : NewRelicReporting}
    (h : NewRelicReporting.fromYaml y = .ok v) :
    NewRelicReporting.fromYaml (NewRelicReporting.toYaml v) = .ok v := by rfl

theorem MailOptions_rt {y : Yaml} {v : MailOptions} (h : MailOptions.fromYaml y = .ok v) :
    MailOptions.fromYaml (MailOptions.toYaml v) = .ok v := by
  unfold MailOptions.fromYaml at h
  obtain ⟨kvs, _, h⟩ := ebind_eq_ok.mp h
  obtain ⟨a1, h1, h⟩ := ebind_eq_ok.mp h
  obtain ⟨a2, h2, h⟩ := ebind_eq_ok.mp h
  obtain ⟨a3, h3, h⟩ := ebind_eq_ok.mp h
  obtain rfl : (⟨a1, a2, a3⟩ : MailOptions) = v := Except.ok.inj h
  have f1 : Smtp.fromYaml (Smtp.toYaml a1) = .ok a1 := by
    rcases defField_ok h1 with ⟨y0, _, hp⟩ | rfl
    · exact Smtp_rt hp
    · rfl
  have f3 : vecFromYaml strFromYaml (.seq (a3.map .str)) = .ok a3 := vecStr_emit a3
  simp [MailOptions.toYaml, MailOptions.fromYaml, asMap, reqField, defField, optField,
        lookupFirst, strFromYaml, boolFromYaml, ebind_ok, f1, f3]

theorem LogHook_rt {y : Yaml} {v : LogHook} (h : LogHook.fromYaml y = .ok v) :
    LogHook.fromYaml (LogHook.toYaml v) = .ok v := by
  unfold LogHook.fromYaml at h
  obtain ⟨kvs, _, h⟩ := ebind_eq_ok.mp h
  obtain ⟨a1, h1, h⟩ := ebind_eq_ok.mp h
  obtain ⟨a2, h2, h⟩ := ebind_eq_ok.mp h
  obtain ⟨a3, h3, h⟩ := ebind_eq_ok.mp h
  obtain ⟨a4, h4, h⟩ := ebind_eq_ok.mp h
  obtain rfl : (⟨a1, a2, a3, a4⟩ : LogHook) = v := Except.ok.inj h
  have f3 : vecFromYaml strFromYaml (.seq (a3.map .str)) = .ok a3 := vecStr_emit a3
  have f4 : MailOptions.fromYaml (MailOptions.toYaml a4) = .ok a4 := by
    rcases defField_ok h4 with ⟨y0, _, hp⟩ | rfl
    · exact MailOptions_rt hp
    · rfl
  simp [LogHook.toYaml, LogHook.fromYaml, asMap, reqField, defField, optField,
        lookupFirst, strFromYaml, boolFromYaml, ebind_ok, f3, f4]

theorem Log_rt {y : Yaml} {v : Log} (h : Log.fromYaml y = .ok v) :
    Log.fromYaml (Log.toYaml v) = .ok v := by
  unfold Log.fromYaml at h
  obtain ⟨kvs, _, h⟩ := ebind_eq_ok.mp h
  obtain ⟨a1, h1, h⟩ := ebind_eq_ok.mp h
  obtain ⟨a2, h2, h⟩ := ebind_eq_ok.mp h
  obtain ⟨a3, h3, h⟩ := ebind_eq_ok.mp h
  obtain ⟨a4, h4, h⟩ := ebind_eq_ok.mp h
  obtain ⟨a5, h5, h⟩ := ebind_eq_ok.mp h
  obtain rfl : (⟨a1, a2, a3, a4, a5⟩ : Log) = v := Except.ok.inj h
  have f1 : AccessLog.fromYaml (AccessLog.toYaml a1) = .ok a1 := by
    rcases defField_ok h1 with ⟨y0, _, hp⟩ | rfl
    · exact AccessLog_rt hp
    · rfl
  have f4 : smapFromYaml strFromYaml (smapToYaml .str a4) = .ok a4 := by
    rcases defField_ok h4 with ⟨y0, _, hp⟩ | rfl
    · exact smapStr_rt hp
    · rfl
  have f5 : vecFromYaml LogHook.fromYaml (.seq (a5.map LogHook.toYaml)) = .ok a5 := by
    rcases defField_ok h5 with ⟨y0, _, hp⟩ | rfl
    · exact vec_rt (fun _ _ ha => LogHook_rt ha) hp
    · rfl
  simp [Log.toYaml, Log.fromYaml, asMap, reqField, defField, optField,
        lookupFirst, strFromYaml, boolFromYaml, ebind_ok, f1, f4, f5]

theorem Middleware_rt {y : Yaml} {v : Middleware} (h : Middleware.fromYaml y = .ok v) :
    Middleware.fromYaml (Middleware.toYaml v) = .ok v := by
  unfold Middleware.fromYaml at h
  obtain ⟨kvs, _, h⟩ := ebind_eq_ok.mp h
  obtain ⟨a1, h1, h⟩ := ebind_eq_ok.mp h
  obtain ⟨a2, h2, h⟩ := ebind_eq_ok.mp h
  obtain ⟨a3, h3, h⟩ := ebind_eq_ok.mp h
  obtain rfl : (⟨a1, a2, a3⟩ : Middleware) = v := Except.ok.inj h
  have f3 : Parameters.fromYaml (Parameters.toYaml a3) = .ok a3 := by
    obtain ⟨y0, _, hp⟩ := reqField_ok h3
    exact Parameters_rt hp
  simp [Middleware.toYaml, Middleware.fromYaml, asMap, reqField, defField, optField,
        lookupFirst, strFromYaml, boolFromYaml, ebind_ok, f3]

theorem Reporting_rt {y : Yaml} {v : Reporting} (h : Reporting.fromYaml y = .ok v) :
    Reporting.fromYaml (Reporting.toYaml v) = .ok v := by
  unfold Reporting.fromYaml at h
  obtain ⟨kvs, _, h⟩ := ebind_eq_ok.mp h
  obtain ⟨a1, h1, h⟩ := ebind_eq_ok.mp h
  obtain ⟨a2, h2, h⟩ := ebind_eq_ok.mp h
  obtain rfl : (⟨a1, a2⟩ : Reporting) = v := Except.ok.inj h
  have f1 : BugsnagReporting.fromYaml (BugsnagReporting.toYaml a1) = .ok a1 := by
    obtain ⟨y0, _, hp⟩ := reqField_ok h1
    exact BugsnagReporting_rt hp
  have f2 : NewRelicReporting.fromYaml (NewRelicReporting.toYaml a2) = .ok a2 := by
    rcases defField_ok h2 with ⟨y0, _, hp⟩ | rfl
    · exact NewRelicReporting_rt hp
    · rfl
  simp [Reporting.toYaml, Reporting.fromYaml, asMap, reqField, defField, optField,
        lookupFirst, strFromYaml, boolFromYaml, ebind_ok, f1, f2]

theorem LetsEncrypt_rt {y : Yaml} {v : LetsEncrypt} (h : LetsEncrypt.fromYaml y = .ok v) :
    LetsEncrypt.fromYaml (LetsEncrypt.toYaml v) = .ok v := by
  unfold LetsEncrypt.fromYaml at h
  obtain ⟨kvs, _, h⟩ := ebind_eq_ok.mp h
  obtain ⟨a1, h1, h⟩ := ebind_eq_ok.mp h
  obtain ⟨a2, h2, h⟩ := ebind_eq_ok.mp h
  obtain ⟨a3, h3, h⟩ := ebind_eq_ok.mp h
  obtain rfl : (⟨a1, a2, a3⟩ : LetsEncrypt) = v := Except.ok.inj h
  have f3 : vecFromYaml strFromYaml (.seq (a3.map .str)) = .ok a3 := vecStr_emit a3
  simp [LetsEncrypt.toYaml, LetsEncrypt.fromYaml, asMap, reqField, defField, optField,
        lookupFirst, strFromYaml, boolFromYaml, ebind_ok, f3]

theorem Tls_rt {y : Yaml} {v : Tls} (h : Tls.fromYaml y = .ok v) :
    Tls.fromYaml (Tls.toYaml v) = .ok v := by
  unfold Tls.fromYaml at h
  obtain ⟨kvs, _, h⟩ := ebind_eq_ok.mp h
  obtain ⟨a1, h1, h⟩ := ebind_eq_ok.mp h
  obtain ⟨a2, h2, h⟩ := ebind_eq_ok.mp h
  obtain ⟨a3, h3, h⟩ := ebind_eq_ok.mp h
  obtain ⟨a4, h4, h⟩ := ebind_eq_ok.mp h
  obtain ⟨a5, h5, h⟩ := ebind_eq_ok.mp h
  obtain rfl : (⟨a1, a2, a3, a4, a5⟩ : Tls) = v := Except.ok.inj h
  have f3 : vecFromYaml strFromYaml (.seq (a3.map .str)) = .ok a3 := vecStr_emit a3
  have f5 : LetsEncrypt.fromYaml (LetsEncrypt.toYaml a5) = .ok a5 := by
    rcases defField_ok h5 with ⟨y0, _, hp⟩ | rfl
    · exact LetsEncrypt_rt hp
    · rfl
  simp [Tls.toYaml, Tls.fromYaml, asMap, reqField, defField, optField,
        lookupFirst, strFromYaml, boolFromYaml, ebind_ok, f3, f5]

theorem Http_rt {y : Yaml} {v : Http} (h : Http.fromYaml y = .ok v) :
    Http.fromYaml (Http.toYaml v) = .ok v := by
  unfold Http.fromYaml at h
  obtain ⟨kvs, _, h⟩ := ebind_eq_ok.mp h
  obtain ⟨a1, h1, h⟩ := ebind_eq_ok.mp h
  obtain ⟨a2, h2, h⟩ := ebind_eq_ok.mp h
  obtain ⟨a3, h3, h⟩ := ebind_eq_ok.mp h
  obtain ⟨a4, h4, h⟩ := ebind_eq_ok.mp h
  obtain ⟨a5, h5, h⟩ := ebind_eq_ok.mp h
  obtain ⟨a6, h6, h⟩ := ebind_eq_ok.mp h
  obtain ⟨a7, h7, h⟩ := ebind_eq_ok.mp h
  obtain ⟨a8, h8, h⟩ := ebind_eq_ok.mp h
  obtain ⟨a9, h9, h⟩ := ebind_eq_ok.mp h
  obtain ⟨a10, h10, h⟩ := ebind_eq_ok.mp h
  obtain ⟨a11, h11, h⟩ := ebind_eq_ok.mp h
  obtain rfl : (⟨a1, a2, a3, a4, a5, a6, a7, a8, a9, a10, a11⟩ : Http) = v := Except.ok.inj h
  have f7 : durationFromYaml (.str (Duration.serializeStr a7)) = .ok a7 := by
    rcases defField_ok h7 with ⟨y0, _, hp⟩ | rfl
    · exact duration_rt hp
    · rfl
  have f8 : Tls.fromYaml (Tls.toYaml a8) = .ok a8 := by
    rcases defField_ok h8 with ⟨y0, _, hp⟩ | rfl
    · exact Tls_rt hp
    · rfl
  have f9 : smapFromYaml (vecFromYaml strFromYaml) (smapToYaml (fun ss => .seq (ss.map .str)) a9) = .ok a9 := by
    obtain ⟨y0, _, hp⟩ := reqField_ok h9
    exact header_rt hp
  have f10 : Debug.fromYaml (Debug.toYaml a10) = .ok a10 := by
    rcases defField_ok h10 with ⟨y0, _, hp⟩ | rfl
    · exact Debug_rt hp
    · rfl
  have f11 : Http2.fromYaml (Http2.toYaml a11) = .ok a11 := by
    rcases defField_ok h11 with ⟨y0, _, hp⟩ | rfl
    · exact Http2_rt hp
    · rfl
  simp [Http.toYaml, Http.fromYaml, asMap, reqField, defField, optField,
        lookupFirst, strFromYaml, boolFromYaml, ebind_ok, f7, f8, f9, f10, f11]

theorem Ignore_rt {y : Yaml} {v : Ignore} (h : Ignore.fromYaml y = .ok v) :
    Ignore.fromYaml (Ignore.toYaml v) = .ok v := by
  unfold Ignore.fromYaml at h
  obtain ⟨kvs, _, h⟩ := ebind_eq_ok.mp h
  obtain ⟨a1, h1, h⟩ := ebind_eq_ok.mp h
  obtain ⟨a2, h2, h⟩ := ebind_eq_ok.mp h
  obtain rfl : (⟨a1, a2⟩ : Ignore) = v := Except.ok.inj h
  have f1 : vecFromYaml strFromYaml (.seq (a1.map .str)) = .ok a1 := vecStr_emit a1
  have f2 : vecFromYaml strFromYaml (.seq (a2.map .str)) = .ok a2 := vecStr_emit a2
  simp [Ignore.toYaml, Ignore.fromYaml, asMap, reqField, defField, optField,
        lookupFirst, strFromYaml, boolFromYaml, ebind_ok, f1, f2]

theorem EndPoint_rt {y : Yaml} {v : EndPoint} (h : EndPoint.fromYaml y = .ok v) :
    EndPoint.fromYaml (EndPoint.toYaml v) = .ok v := by
  unfold EndPoint.fromYaml at h
  obtain ⟨kvs, _, h⟩ := ebind_eq_ok.mp h
  obtain ⟨a1, h1, h⟩ := ebind_eq_ok.mp h
  obtain ⟨a2, h2, h⟩ := ebind_eq_ok.mp h
  obtain ⟨a3, h3, h⟩ := ebind_eq_ok.mp h
  obtain ⟨a4, h4, h⟩ := ebind_eq_ok.mp h
  obtain ⟨a5, h5, h⟩ := ebind_eq_ok.mp h
  obtain ⟨a6, h6, h⟩ := ebind_eq_ok.mp h
  obtain ⟨a7, h7, h⟩ := ebind_eq_ok.mp h
  obtain ⟨a8, h8, h⟩ := ebind_eq_ok.mp h
  obtain ⟨a9, h9, h⟩ := ebind_eq_ok.mp h
  obtain rfl : (⟨a1, a2, a3, a4, a5, a6, a7, a8, a9⟩ : EndPoint) = v := Except.ok.inj h
  have f4 : smapFromYaml (vecFromYaml strFromYaml) (smapToYaml (fun ss => .seq (ss.map .str)) a4) = .ok a4 := by
    obtain ⟨y0, _, hp⟩ := reqField_ok h4
    exact header_rt hp
  have f5 : durationFromYaml (.str (Duration.serializeStr a5)) = .ok a5 := by
    rcases defField_ok h5 with ⟨y0, _, hp⟩ | rfl
    · exact duration_rt hp
    · rfl
  have f6 : u32FromYaml (.int (a6 : Int)) = .ok a6 := by
    rcases defField_ok h6 with ⟨y0, _, hp⟩ | rfl
    · exact u32_rt hp
    · rfl
  have f7 : durationFromYaml (.str (Duration.serializeStr a7)) = .ok a7 := by
    rcases defField_ok h7 with ⟨y0, _, hp⟩ | rfl
    · exact duration_rt hp
    · rfl
  have f8 : vecFromYaml strFromYaml (.seq (a8.map .str)) = .ok a8 := vecStr_emit a8
  have f9 : Ignore.fromYaml (Ignore.toYaml a9) = .ok a9 := by
    rcases defField_ok h9 with ⟨y0, _, hp⟩ | rfl
    · exact Ignore_rt hp
    · rfl
  simp [EndPoint.toYaml, EndPoint.fromYaml, asMap, reqField, defField, optField,
        lookupFirst, strFromYaml, boolFromYaml, ebind_ok, f4, f5, f6, f7, f8, f9]

theorem Notifications_rt {y : Yaml} {v : Notifications} (h : Notifications.fromYaml y = .ok v) :
    Notifications.fromYaml (Notifications.toYaml v) = .ok v := by
  unfold Notifications.fromYaml at h
  obtain ⟨kvs, _, h⟩ := ebind_eq_ok.mp h
  obtain ⟨a1, h1, h⟩ := ebind_eq_ok.mp h
  obtain ⟨a2, h2, h⟩ := ebind_eq_ok.mp h
  obtain rfl : (⟨a1, a2⟩ : Notifications) = v := Except.ok.inj h
  have f1 : Events.fromYaml (Events.toYaml a1) = .ok a1 := by
    rcases defField_ok h1 with ⟨y0, _, hp⟩ | rfl
    · exact Events_rt hp
    · rfl
  have f2 : vecFromYaml EndPoint.fromYaml (.seq (a2.map EndPoint.toYaml)) = .ok a2 := by
    obtain ⟨y0, _, hp⟩ := reqField_ok h2
    exact vec_rt (fun _ _ ha => EndPoint_rt ha) hp
  simp [Notifications.toYaml, Notifications.fromYaml, asMap, reqField, defField, optField,
        lookupFirst, strFromYaml, boolFromYaml, ebind_ok, f1, f2]

theorem Pool_rt {y : Yaml} {v : Pool} (h : Pool.fromYaml y = .ok v) :
    Pool.fromYaml (Pool.toYaml v) = .ok v := by
  unfold Pool.fromYaml at h
  obtain ⟨kvs, _, h⟩ := ebind_eq_ok.mp h
  obtain ⟨a1, h1, h⟩ := ebind_eq_ok.mp h
  obtain ⟨a2, h2, h⟩ := ebind_eq_ok.mp h
  obtain ⟨a3, h3, h⟩ := ebind_eq_ok.mp h
  obtain rfl : (⟨a1, a2, a3⟩ : Pool) = v := Except.ok.inj h
  have f1 : u32FromYaml (.int (a1 : Int)) = .ok a1 := by
    obtain ⟨y0, _, hp⟩ := reqField_ok h1
    exact u32_rt hp
  have f2 : u32FromYaml (.int (a2 : Int)) = .ok a2 := by
    obtain ⟨y0, _, hp⟩ := reqField_ok h2
    exact u32_rt hp
  have f3 : durationFromYaml (.str (Duration.serializeStr a3)) = .ok a3 := by
    obtain ⟨y0, _, hp⟩ := reqField_ok h3
    exact duration_rt hp
  unfold Pool.toYaml Pool.fromYaml
  rw [show asMap (Yaml.map [("maxidle", Yaml.int (a1 : Int)),
      ("maxactive", Yaml.int (a2 : Int)),
      ("idletimeout", Yaml.str (Duration.serializeStr a3))]) "struct Pool"
    = Except.ok [("maxidle", Yaml.int (a1 : Int)),
      ("maxactive", Yaml.int (a2 : Int)),
      ("idletimeout", Yaml.str (Duration.serializeStr a3))] from rfl, ebind_ok]
  rw [show reqField [("maxidle", Yaml.int (a1 : Int)),
      ("maxactive", Yaml.int (a2 : Int)),
      ("idletimeout", Yaml.str (Duration.serializeStr a3))] "maxidle" u32FromYaml
    = u32FromYaml (Yaml.int (a1 : Int)) from rfl, f1, ebind_ok]
  rw [show reqField [("maxidle", Yaml.int (a1 : Int)),
      ("maxactive", Yaml.int (a2 : Int)),
      ("idletimeout", Yaml.str (Duration.serializeStr a3))] "maxactive" u32FromYaml
    = u32FromYaml (Yaml.int (a2 : Int)) from rfl, f2, ebind_ok]
  rw [show reqField [("maxidle", Yaml.int (a1 : Int)),
      ("maxactive", Yaml.int (a2 : Int)),
      ("idletimeout", Yaml.str (Duration.serializeStr a3))] "idletimeout" durationFromYaml
    = durationFromYaml (Yaml.str (Duration.serializeStr a3)) from rfl, f3, ebind_ok]

theorem Redis_rt {y : Yaml} {v : Redis} (h : Redis.fromYaml y = .ok v) :
    Redis.fromYaml (Redis.toYaml v) = .ok v := by
  unfold Redis.fromYaml at h
  obtain ⟨kvs, _, h⟩ := ebind_eq_ok.mp h
  obtain ⟨a1, h1, h⟩ := ebind_eq_ok.mp h
  obtain ⟨a2, h2, h⟩ := ebind_eq_ok.mp h
  obtain ⟨a3, h3, h⟩ := ebind_eq_ok.mp h
  obtain ⟨a4, h4, h⟩ := ebind_eq_ok.mp h
  obtain ⟨a5, h5, h⟩ := ebind_eq_ok.mp h
  obtain ⟨a6, h6, h⟩ := ebind_eq_ok.mp h
  obtain ⟨a7, h7, h⟩ := ebind_eq_ok.mp h
  obtain rfl : (⟨a1, a2, a3, a4, a5, a6, a7⟩ : Redis) = v := Except.ok.inj h
  have f3 : u32FromYaml (.int (a3 : Int)) = .ok a3 := by
    obtain ⟨y0, _, hp⟩ := reqField_ok h3
    exact u32_rt hp
  have f4 : durationFromYaml (.str (Duration.serializeStr a4)) = .ok a4 := by
    rcases defField_ok h4 with ⟨y0, _, hp⟩ | rfl
    · exact duration_rt hp
    · rfl
  have f5 : durationFromYaml (.str (Duration.serializeStr a5)) = .ok a5 := by
    rcases defField_ok h5 with ⟨y0, _, hp⟩ | rfl
    · exact duration_rt hp
    · rfl
  have f6 : durationFromYaml (.str (Duration.serializeStr a6)) = .ok a6 := by
    rcases defField_ok h6 with ⟨y0, _, hp⟩ | rfl
    · exact duration_rt hp
    · rfl
  have f7 : Pool.fromYaml (Pool.toYaml a7) = .ok a7 := by
    obtain ⟨y0, _, hp⟩ := reqField_ok h7
    exact Pool_rt hp
  unfold Redis.toYaml Redis.fromYaml
  rw [show asMap (Yaml.map [("addr", Yaml.str a1), ("password", Yaml.str a2),
      ("db", Yaml.int (a3 : Int)),
      ("dialtimeout", Yaml.str (Duration.serializeStr a4)),
      ("readtimeout", Yaml.str (Duration.serializeStr a5)),
      ("writetimeout", Yaml.str (Duration.serializeStr a6)),
      ("pool", Pool.toYaml a7)]) "struct Redis"
    = Except.ok [("addr", Yaml.str a1), ("password", Yaml.str a2),
      ("db", Yaml.int (a3 : Int)),
      ("dialtimeout", Yaml.str (Duration.serializeStr a4)),
      ("readtimeout", Yaml.str (Duration.serializeStr a5)),
      ("writetimeout", Yaml.str (Duration.serializeStr a6)),
      ("pool", Pool.toYaml a7)] from rfl, ebind_ok]
  rw [show reqField [("addr", Yaml.str a1), ("password", Yaml.str a2),
      ("db", Yaml.int (a3 : Int)),
      ("dialtimeout", Yaml.str (Duration.serializeStr a4)),
      ("readtimeout", Yaml.str (Duration.serializeStr a5)),
      ("writetimeout", Yaml.str (Duration.serializeStr a6)),
      ("pool", Pool.toYaml a7)] "addr" strFromYaml
    = strFromYaml (Yaml.str a1) from rfl, strFromYaml_str, ebind_ok]
  rw [show reqField [("addr", Yaml.str a1), ("password", Yaml.str a2),
      ("db", Yaml.int (a3 : Int)),
      ("dialtimeout", Yaml.str (Duration.serializeStr a4)),
      ("readtimeout", Yaml.str (Duration.serializeStr a5)),
      ("writetimeout", Yaml.str (Duration.serializeStr a6)),
      ("pool", Pool.toYaml a7)] "password" strFromYaml
    = strFromYaml (Yaml.str a2) from rfl, strFromYaml_str, ebind_ok]
  rw [show reqField [("addr", Yaml.str a1), ("password", Yaml.str a2),
      ("db", Yaml.int (a3 : Int)),
      ("dialtimeout", Yaml.str (Duration.serializeStr a4)),
      ("readtimeout", Yaml.str (Duration.serializeStr a5)),
      ("writetimeout", Yaml.str (Duration.serializeStr a6)),
      ("pool", Pool.toYaml a7)] "db" u32FromYaml
    = u32FromYaml (Yaml.int (a3 : Int)) from rfl, f3, ebind_ok]
  rw [show defField [("addr", Yaml.str a1), ("password", Yaml.str a2),
      ("db", Yaml.int (a3 : Int)),
      ("dialtimeout", Yaml.str (Duration.serializeStr a4)),
      ("readtimeout", Yaml.str (Duration.serializeStr a5)),
      ("writetimeout", Yaml.str (Duration.serializeStr a6)),
      ("pool", Pool.toYaml a7)] "dialtimeout" durationFromYaml Duration.default
    = durationFromYaml (Yaml.str (Duration.serializeStr a4)) from rfl, f4, ebind_ok]
  rw [show defField [("addr", Yaml.str a1), ("password", Yaml.str a2),
      ("db", Yaml.int (a3 : Int)),
      ("dialtimeout", Yaml.str (Duration.serializeStr a4)),
      ("readtimeout", Yaml.str (Duration.serializeStr a5)),
      ("writetimeout", Yaml.str (Duration.serializeStr a6)),
      ("pool", Pool.toYaml a7)] "readtimeout" durationFromYaml Duration.default
    = durationFromYaml (Yaml.str (Duration.serializeStr a5)) from rfl, f5, ebind_ok]
  rw [show defField [("addr", Yaml.str a1), ("password", Yaml.str a2),
      ("db", Yaml.int (a3 : Int)),
      ("dialtimeout", Yaml.str (Duration.serializeStr a4)),
      ("readtimeout", Yaml.str (Duration.serializeStr a5)),
      ("writetimeout", Yaml.str (Duration.serializeStr a6)),
      ("pool", Pool.toYaml a7)] "writetimeout" durationFromYaml Duration.default
    = durationFromYaml (Yaml.str (Duration.serializeStr a6)) from rfl, f6, ebind_ok]
  rw [show reqField [("addr", Yaml.str a1), ("password", Yaml.str a2),
      ("db", Yaml.int (a3 : Int)),
      ("dialtimeout", Yaml.str (Duration.serializeStr a4)),
      ("readtimeout", Yaml.str (Duration.serializeStr a5)),
      ("writetimeout", Yaml.str (Duration.serializeStr a6)),
      ("pool", Pool.toYaml a7)] "pool" Pool.fromYaml
    = Pool.fromYaml (Pool.toYaml a7) from rfl, f7, ebind_ok]

theorem FileChecker_rt {y : Yaml} {v : FileChecker} (h : FileChecker.fromYaml y = .ok v) :
    FileChecker.fromYaml (FileChecker.toYaml v) = .ok v := by
  unfold FileChecker.fromYaml at h
  obtain ⟨kvs, _, h⟩ := ebind_eq_ok.mp h
  obtain ⟨a1, h1, h⟩ := ebind_eq_ok.mp h
  obtain ⟨a2, h2, h⟩ := ebind_eq_ok.mp h
  obtain ⟨a3, h3, h⟩ := ebind_eq_ok.mp h
  obtain rfl : (⟨a1, a2, a3⟩ : FileChecker) = v := Except.ok.inj h
  have f1 : durationFromYaml (.str (Duration.serializeStr a1)) = .ok a1 := by
    rcases defField_ok h1 with ⟨y0, _, hp⟩ | rfl
    · exact duration_rt hp
    · rfl
  have f3 : u32FromYaml (.int (a3 : Int)) = .ok a3 := by
    rcases defField_ok h3 with ⟨y0, _, hp⟩ | rfl
    · exact u32_rt hp
    · rfl
  simp [FileChecker.toYaml, FileChecker.fromYaml, asMap, reqField, defField, optField,
        lookupFirst, strFromYaml, boolFromYaml, ebind_ok, f1, f3]

theorem HttpChecker_rt {y : Yaml} {v : HttpChecker} (h : HttpChecker.fromYaml y = .ok v) :
    HttpChecker.fromYaml (HttpChecker.toYaml v) = .ok v := by
  unfold HttpChecker.fromYaml at h
  obtain ⟨kvs, _, h⟩ := ebind_eq_ok.mp h
  obtain ⟨a1, h1, h⟩ := ebind_eq_ok.mp h
  obtain ⟨a2, h2, h⟩ := ebind_eq_ok.mp h
  obtain ⟨a3, h3, h⟩ := ebind_eq_ok.mp h
  obtain ⟨a4, h4, h⟩ := ebind_eq_ok.mp h
  obtain ⟨a5, h5, h⟩ := ebind_eq_ok.mp h
  obtain ⟨a6, h6, h⟩ := ebind_eq_ok.mp h
  obtain rfl : (⟨a1, a2, a3, a4, a5, a6⟩ : HttpChecker) = v := Except.ok.inj h
  have f1 : durationFromYaml (.str (Duration.serializeStr a1)) = .ok a1 := by
    rcases defField_ok h1 with ⟨y0, _, hp⟩ | rfl
    · exact duration_rt hp
    · rfl
  have f2 : i32FromYaml (.int a2) = .ok a2 := by
    obtain ⟨y0, _, hp⟩ := reqField_ok h2
    exact i32_rt hp
  have f3 : durationFromYaml (.str (Duration.serializeStr a3)) = .ok a3 := by
    rcases defField_ok h3 with ⟨y0, _, hp⟩ | rfl
    · exact duration_rt hp
    · rfl
  have f5 : smapFromYaml (vecFromYaml strFromYaml) (smapToYaml (fun ss => .seq (ss.map .str)) a5) = .ok a5 := by
    obtain ⟨y0, _, hp⟩ := reqField_ok h5
    exact header_rt hp
  have f6 : u32FromYaml (.int (a6 : Int)) = .ok a6 := by
    rcases defField_ok h6 with ⟨y0, _, hp⟩ | rfl
    · exact u32_rt hp
    · rfl
  simp [HttpChecker.toYaml, HttpChecker.fromYaml, asMap, reqField, defField, optField,
        lookupFirst, strFromYaml, boolFromYaml, ebind_ok, f1, f2, f3, f5, f6]

theorem TcpChecker_rt {y : Yaml} {v : TcpChecker} (h : TcpChecker.fromYaml y = .ok v) :
    TcpChecker.fromYaml (TcpChecker.toYaml v) = .ok v := by
  unfold TcpChecker.fromYaml at h
  obtain ⟨kvs, _, h⟩ := ebind_eq_ok.mp h
  obtain ⟨a1, h1, h⟩ := ebind_eq_ok.mp h
  obtain ⟨a2, h2, h⟩ := ebind_eq_ok.mp h
  obtain ⟨a3, h3, h⟩ := ebind_eq_ok.mp h
  obtain ⟨a4, h4, h⟩ := ebind_eq_ok.mp h
  obtain rfl : (⟨a1, a2, a3, a4⟩ : TcpChecker) = v := Except.ok.inj h
  have f1 : durationFromYaml (.str (Duration.serializeStr a1)) = .ok a1 := by
    rcases defField_ok h1 with ⟨y0, _, hp⟩ | rfl
    · exact duration_rt hp
    · rfl
  have f2 : durationFromYaml (.str (Duration.serializeStr a2)) = .ok a2 := by
    rcases defField_ok h2 with ⟨y0, _, hp⟩ | rfl
    · exact duration_rt hp
    · rfl
  have f4 : u32FromYaml (.int (a4 : Int)) = .ok a4 := by
    rcases defField_ok h4 with ⟨y0, _, hp⟩ | rfl
    · exact u32_rt hp
    · rfl
  simp [TcpChecker.toYaml, TcpChecker.fromYaml, asMap, reqField, defField, optField,
        lookupFirst, strFromYaml, boolFromYaml, ebind_ok, f1, f2, f4]

theorem StorageDriver_rt {y : Yaml} {v : StorageDriver} (h : StorageDriver.fromYaml y = .ok v) :
    StorageDriver.fromYaml (StorageDriver.toYaml v) = .ok v := by
  unfold StorageDriver.fromYaml at h
  obtain ⟨kvs, _, h⟩ := ebind_eq_ok.mp h
  obtain ⟨a1, h1, h⟩ := ebind_eq_ok.mp h
  obtain ⟨a2, h2, h⟩ := ebind_eq_ok.mp h
  obtain ⟨a3, h3, h⟩ := ebind_eq_ok.mp h
  obtain rfl : (⟨a1, a2, a3⟩ : StorageDriver) = v := Except.ok.inj h
  have f2 : durationFromYaml (.str (Duration.serializeStr a2)) = .ok a2 := by
    rcases defField_ok h2 with ⟨y0, _, hp⟩ | rfl
    · exact duration_rt hp
    · rfl
  have f3 : u32FromYaml (.int (a3 : Int)) = .ok a3 := by
    rcases defField_ok h3 with ⟨y0, _, hp⟩ | rfl
    · exact u32_rt hp
    · rfl
  simp [StorageDriver.toYaml, StorageDriver.fromYaml, asMap, reqField, defField, optField,
        lookupFirst, strFromYaml, boolFromYaml, ebind_ok, f2, f3]

theorem Health_rt {y : Yaml} {v : Health} (h : Health.fromYaml y = .ok v) :
    Health.fromYaml (Health.toYaml v) = .ok v := by
  unfold Health.fromYaml at h
  obtain ⟨kvs, _, h⟩ := ebind_eq_ok.mp h
  obtain ⟨a1, h1, h⟩ := ebind_eq_ok.mp h
  obtain ⟨a2, h2, h⟩ := ebind_eq_ok.mp h
  obtain ⟨a3, h3, h⟩ := ebind_eq_ok.mp h
  obtain ⟨a4, h4, h⟩ := ebind_eq_ok.mp h
  obtain rfl : (⟨a1, a2, a3, a4⟩ : Health) = v := Except.ok.inj h
  have f1 : vecFromYaml FileChecker.fromYaml (.seq (a1.map FileChecker.toYaml)) = .ok a1 := by
    rcases defField_ok h1 with ⟨y0, _, hp⟩ | rfl
    · exact vec_rt (fun _ _ ha => FileChecker_rt ha) hp
    · rfl
  have f2 : vecFromYaml HttpChecker.fromYaml (.seq (a2.map HttpChecker.toYaml)) = .ok a2 := by
    rcases defField_ok h2 with ⟨y0, _, hp⟩ | rfl
    · exact vec_rt (fun _ _ ha => HttpChecker_rt ha) hp
    · rfl
  have f3 : vecFromYaml TcpChecker.fromYaml (.seq (a3.map TcpChecker.toYaml)) = .ok a3 := by
    rcases defField_ok h3 with ⟨y0, _, hp⟩ | rfl
    · exact vec_rt (fun _ _ ha => TcpChecker_rt ha) hp
    · rfl
  have f4 : StorageDriver.fromYaml (StorageDriver.toYaml a4) = .ok a4 := by
    obtain ⟨y0, _, hp⟩ := reqField_ok h4
    exact StorageDriver_rt hp
  simp [Health.toYaml, Health.fromYaml, asMap, reqField, defField, optField,
        lookupFirst, strFromYaml, boolFromYaml, ebind_ok, f1, f2, f3, f4]

theorem Compatibility_rt {y : Yaml} {v : Compatibility} (h : Compatibility.fromYaml y = .ok v) :
    Compatibility.fromYaml (Compatibility.toYaml v) = .ok v := by
  unfold Compatibility.fromYaml at h
  obtain ⟨kvs, _, h⟩ := ebind_eq_ok.mp h
  obtain ⟨a1, h1, h⟩ := ebind_eq_ok.mp h
  obtain rfl : (⟨a1⟩ : Compatibility) = v := Except.ok.inj h
  have f1 : Schema1.fromYaml (Schema1.toYaml a1) = .ok a1 := by
    obtain ⟨y0, _, hp⟩ := reqField_ok h1
    exact Schema1_rt hp
  simp [Compatibility.toYaml, Compatibility.fromYaml, asMap, reqField, defField, optField,
        lookupFirst, strFromYaml, boolFromYaml, ebind_ok, f1]

theorem Urls_rt {y : Yaml} {v : Urls} (h : Urls.fromYaml y = .ok v) :
    Urls.fromYaml (Urls.toYaml v) = .ok v := by
  unfold Urls.fromYaml at h
  obtain ⟨kvs, _, h⟩ := ebind_eq_ok.mp h
  obtain ⟨a1, h1, h⟩ := ebind_eq_ok.mp h
  obtain ⟨a2, h2, h⟩ := ebind_eq_ok.mp h
  obtain rfl : (⟨a1, a2⟩ : Urls) = v := Except.ok.inj h
  have f1 : vecFromYaml strFromYaml (.seq (a1.map .str)) = .ok a1 := vecStr_emit a1
  have f2 : vecFromYaml strFromYaml (.seq (a2.map .str)) = .ok a2 := vecStr_emit a2
  simp [Urls.toYaml, Urls.fromYaml, asMap, reqField, defField, optField,
        lookupFirst, strFromYaml, boolFromYaml, ebind_ok, f1, f2]

theorem Manifest_rt {y : Yaml} {v : Manifest} (h : Manifest.fromYaml y = .ok v) :
    Manifest.fromYaml (Manifest.toYaml v) = .ok v := by
  unfold Manifest.fromYaml at h
  obtain ⟨kvs, _, h⟩ := ebind_eq_ok.mp h
  obtain ⟨a1, h1, h⟩ := ebind_eq_ok.mp h
  obtain rfl : (⟨a1⟩ : Manifest) = v := Except.ok.inj h
  have f1 : Urls.fromYaml (Urls.toYaml a1) = .ok a1 := by
    obtain ⟨y0, _, hp⟩ := reqField_ok h1
    exact Urls_rt hp
  simp [Manifest.toYaml, Manifest.fromYaml, asMap, reqField, defField, optField,
        lookupFirst, strFromYaml, boolFromYaml, ebind_ok, f1]

theorem Validation_rt {y : Yaml} {v : Validation} (h : Validation.fromYaml y = .ok v) :
    Validation.fromYaml (Validation.toYaml v) = .ok v := by
  unfold Validation.fromYaml at h
  obtain ⟨kvs, _, h⟩ := ebind_eq_ok.mp h
  obtain ⟨a1, h1, h⟩ := ebind_eq_ok.mp h
  obtain ⟨a2, h2, h⟩ := ebind_eq_ok.mp h
  obtain ⟨a3, h3, h⟩ := ebind_eq_ok.mp h
  obtain rfl : (⟨a1, a2, a3⟩ : Validation) = v := Except.ok.inj h
  have f3 : Manifest.fromYaml (Manifest.toYaml a3) = .ok a3 := by
    obtain ⟨y0, _, hp⟩ := reqField_ok h3
    exact Manifest_rt hp
  simp [Validation.toYaml, Validation.fromYaml, asMap, reqField, defField, optField,
        lookupFirst, strFromYaml, boolFromYaml, ebind_ok, f3]

theorem Repository_rt {y : Yaml} {v : Repository} (h : Repository.fromYaml y = .ok v) :
    Repository.fromYaml (Repository.toYaml v) = .ok v := by
  unfold Repository.fromYaml at h
  obtain ⟨kvs, _, h⟩ := ebind_eq_ok.mp h
  obtain ⟨a1, h1, h⟩ := ebind_eq_ok.mp h
  obtain rfl : (⟨a1⟩ : Repository) = v := Except.ok.inj h
  have f1 : vecFromYaml strFromYaml (.seq (a1.map .str)) = .ok a1 := vecStr_emit a1
  simp [Repository.toYaml, Repository.fromYaml, asMap, reqField, defField, optField,
        lookupFirst, strFromYaml, boolFromYaml, ebind_ok, f1]

theorem Policy_rt {y : Yaml} {v : Policy} (h : Policy.fromYaml y = .ok v) :
    Policy.fromYaml (Policy.toYaml v) = .ok v := by
  unfold Policy.fromYaml at h
  obtain ⟨kvs, _, h⟩ := ebind_eq_ok.mp h
  obtain ⟨a1, h1, h⟩ := ebind_eq_ok.mp h
  obtain rfl : (⟨a1⟩ : Policy) = v := Except.ok.inj h
  have f1 : Repository.fromYaml (Repository.toYaml a1) = .ok a1 := by
    obtain ⟨y0, _, hp⟩ := reqField_ok h1
    exact Repository_rt hp
  simp [Policy.toYaml, Policy.fromYaml, asMap, reqField, defField, optField,
        lookupFirst, strFromYaml, boolFromYaml, ebind_ok, f1]

theorem Storage_rt {y : Yaml} {st : Storage} (h : Storage.fromYaml y = .ok st) :
    Storage.fromYaml (Storage.toYaml st) = .ok st := by
  unfold Storage.fromYaml at h
  obtain ⟨kvs, _, h⟩ := ebind_eq_ok.mp h
  obtain ⟨mnt, h1, h⟩ := ebind_eq_ok.mp h
  obtain ⟨cch, h2, h⟩ := ebind_eq_ok.mp h
  obtain ⟨del, h3, h⟩ := ebind_eq_ok.mp h
  obtain ⟨red, h4, h⟩ := ebind_eq_ok.mp h
  obtain ⟨med, h5, h⟩ := ebind_eq_ok.mp h
  obtain rfl : (⟨med, mnt, cch, del, red⟩ : Storage) = st := Except.ok.inj h
  have g1 : ∀ w, mnt = some w → Maintenance.fromYaml (Maintenance.toYaml w) = .ok w := by
    rcases optField_ok h1 with rfl | ⟨y0, a0, hp0, rfl⟩
    · exact fun w hw => Option.noConfusion hw
    · intro w hw
      obtain rfl := Option.some.inj hw
      exact Maintenance_rt hp0
  have g2 : ∀ w, cch = some w → Cache.fromYaml (Cache.toYaml w) = .ok w := by
    rcases optField_ok h2 with rfl | ⟨y0, a0, hp0, rfl⟩
    · exact fun w hw => Option.noConfusion hw
    · intro w hw
      obtain rfl := Option.some.inj hw
      exact Cache_rt hp0
  have g3 : ∀ w, del = some w → Delete.fromYaml (Delete.toYaml w) = .ok w := by
    rcases optField_ok h3 with rfl | ⟨y0, a0, hp0, rfl⟩
    · exact fun w hw => Option.noConfusion hw
    · intro w hw
      obtain rfl := Option.some.inj hw
      exact Delete_rt hp0
  have g4 : ∀ w, red = some w → Redirect.fromYaml (Redirect.toYaml w) = .ok w := by
    rcases optField_ok h4 with rfl | ⟨y0, a0, hp0, rfl⟩
    · exact fun w hw => Option.noConfusion hw
    · intro w hw
      obtain rfl := Option.some.inj hw
      exact Redirect_rt hp0
  have f5 := StorageMedia_rt h5
  cases med with
  | Filesystem mm =>
      have f5b : StorageMedia.fromFlat [("filesystem", smapToYaml Parameter.toYaml mm)]
          = .ok (.Filesystem mm) := by simpa [StorageMedia.toFlat] using f5
      have o1 : optField [("filesystem", smapToYaml Parameter.toYaml mm),
          ("maintenance", optToYaml Maintenance.toYaml mnt),
          ("cache", optToYaml Cache.toYaml cch),
          ("delete", optToYaml Delete.toYaml del),
          ("redirect", optToYaml Redirect.toYaml red)] "maintenance"
          Maintenance.fromYaml = .ok mnt :=
        optField_emit rfl (fun w => ⟨_, rfl⟩) g1
      have o2 : optField [("filesystem", smapToYaml Parameter.toYaml mm),
          ("maintenance", optToYaml Maintenance.toYaml mnt),
          ("cache", optToYaml Cache.toYaml cch),
          ("delete", optToYaml Delete.toYaml del),
          ("redirect", optToYaml Redirect.toYaml red)] "cache"
          Cache.fromYaml = .ok cch :=
        optField_emit rfl (fun w => ⟨_, rfl⟩) g2
      have o3 : optField [("filesystem", smapToYaml Parameter.toYaml mm),
          ("maintenance", optToYaml Maintenance.toYaml mnt),
          ("cache", optToYaml Cache.toYaml cch),
          ("delete", optToYaml Delete.toYaml del),
          ("redirect", optToYaml Redirect.toYaml red)] "delete"
          Delete.fromYaml = .ok del :=
        optField_emit rfl (fun w => ⟨_, rfl⟩) g3
      have o4 : optField [("filesystem", smapToYaml Parameter.toYaml mm),
          ("maintenance", optToYaml Maintenance.toYaml mnt),
          ("cache", optToYaml Cache.toYaml cch),
          ("delete", optToYaml Delete.toYaml del),
          ("redirect", optToYaml Redirect.toYaml red)] "redirect"
          Redirect.fromYaml = .ok red :=
        optField_emit rfl (fun w => ⟨_, rfl⟩) g4
      have hfil : List.filter (fun kv => !storageKnownFields.contains kv.1)
          [("filesystem", smapToYaml Parameter.toYaml mm),
           ("maintenance", optToYaml Maintenance.toYaml mnt),
           ("cache", optToYaml Cache.toYaml cch),
           ("delete", optToYaml Delete.toYaml del),
           ("redirect", optToYaml Redirect.toYaml red)]
          = [("filesystem", smapToYaml Parameter.toYaml mm)] := rfl
      unfold Storage.toYaml StorageMedia.toFlat Storage.fromYaml
      rw [show asMap (Yaml.map [("filesystem", smapToYaml Parameter.toYaml mm),
          ("maintenance", optToYaml Maintenance.toYaml mnt),
          ("cache", optToYaml Cache.toYaml cch),
          ("delete", optToYaml Delete.toYaml del),
          ("redirect", optToYaml Redirect.toYaml red)]) "struct Storage"
        = Except.ok [("filesystem", smapToYaml Parameter.toYaml mm),
          ("maintenance", optToYaml Maintenance.toYaml mnt),
          ("cache", optToYaml Cache.toYaml cch),
          ("delete", optToYaml Delete.toYaml del),
          ("redirect", optToYaml Redirect.toYaml red)] from rfl, ebind_ok]
      rw [o1, ebind_ok, o2, ebind_ok, o3, ebind_ok, o4, ebind_ok]
      rw [hfil, f5b, ebind_ok]
  | S3 mm =>
      have f5b : StorageMedia.fromFlat [("s3", smapToYaml Parameter.toYaml mm)]
          = .ok (.S3 mm) := by simpa [StorageMedia.toFlat] using f5
      have o1 : optField [("s3", smapToYaml Parameter.toYaml mm),
          ("maintenance", optToYaml Maintenance.toYaml mnt),
          ("cache", optToYaml Cache.toYaml cch),
          ("delete", optToYaml Delete.toYaml del),
          ("redirect", optToYaml Redirect.toYaml red)] "maintenance"
          Maintenance.fromYaml = .ok mnt :=
        optField_emit rfl (fun w => ⟨_, rfl⟩) g1
      have o2 : optField [("s3", smapToYaml Parameter.toYaml mm),
          ("maintenance", optToYaml Maintenance.toYaml mnt),
          ("cache", optToYaml Cache.toYaml cch),
          ("delete", optToYaml Delete.toYaml del),
          ("redirect", optToYaml Redirect.toYaml red)] "cache"
          Cache.fromYaml = .ok cch :=
        optField_emit rfl (fun w => ⟨_, rfl⟩) g2
      have o3 : optField [("s3", smapToYaml Parameter.toYaml mm),
          ("maintenance", optToYaml Maintenance.toYaml mnt),
          ("cache", optToYaml Cache.toYaml cch),
          ("delete", optToYaml Delete.toYaml del),
          ("redirect", optToYaml Redirect.toYaml red)] "delete"
          Delete.fromYaml = .ok del :=
        optField_emit rfl (fun w => ⟨_, rfl⟩) g3
      have o4 : optField [("s3", smapToYaml Parameter.toYaml mm),
          ("maintenance", optToYaml Maintenance.toYaml mnt),
          ("cache", optToYaml Cache.toYaml cch),
          ("delete", optToYaml Delete.toYaml del),
          ("redirect", optToYaml Redirect.toYaml red)] "redirect"
          Redirect.fromYaml = .ok red :=
        optField_emit rfl (fun w => ⟨_, rfl⟩) g4
      have hfil : List.filter (fun kv => !storageKnownFields.contains kv.1)
          [("s3", smapToYaml Parameter.toYaml mm),
           ("maintenance", optToYaml Maintenance.toYaml mnt),
           ("cache", optToYaml Cache.toYaml cch),
           ("delete", optToYaml Delete.toYaml del),
           ("redirect", optToYaml Redirect.toYaml red)]
          = [("s3", smapToYaml Parameter.toYaml mm)] := rfl
      unfold Storage.toYaml StorageMedia.toFlat Storage.fromYaml
      rw [show asMap (Yaml.map [("s3", smapToYaml Parameter.toYaml mm),
          ("maintenance", optToYaml Maintenance.toYaml mnt),
          ("cache", optToYaml Cache.toYaml cch),
          ("delete", optToYaml Delete.toYaml del),
          ("redirect", optToYaml Redirect.toYaml red)]) "struct Storage"
        = Except.ok [("s3", smapToYaml Parameter.toYaml mm),
          ("maintenance", optToYaml Maintenance.toYaml mnt),
          ("cache", optToYaml Cache.toYaml cch),
          ("delete", optToYaml Delete.toYaml del),
          ("redirect", optToYaml Redirect.toYaml red)] from rfl, ebind_ok]
      rw [o1, ebind_ok, o2, ebind_ok, o3, ebind_ok, o4, ebind_ok]
      rw [hfil, f5b, ebind_ok]
  | InMemory =>
      have o1 : optField [("inmemory", Yaml.null),
          ("maintenance", optToYaml Maintenance.toYaml mnt),
          ("cache", optToYaml Cache.toYaml cch),
          ("delete", optToYaml Delete.toYaml del),
          ("redirect", optToYaml Redirect.toYaml red)] "maintenance"
          Maintenance.fromYaml = .ok mnt :=
        optField_emit rfl (fun w => ⟨_, rfl⟩) g1
      have o2 : optField [("inmemory", Yaml.null),
          ("maintenance", optToYaml Maintenance.toYaml mnt),
          ("cache", optToYaml Cache.toYaml cch),
          ("delete", optToYaml Delete.toYaml del),
          ("redirect", optToYaml Redirect.toYaml red)] "cache"
          Cache.fromYaml = .ok cch :=
        optField_emit rfl (fun w => ⟨_, rfl⟩) g2
      have o3 : optField [("inmemory", Yaml.null),
          ("maintenance", optToYaml Maintenance.toYaml mnt),
          ("cache", optToYaml Cache.toYaml cch),
          ("delete", optToYaml Delete.toYaml del),
          ("redirect", optToYaml Redirect.toYaml red)] "delete"
          Delete.fromYaml = .ok del :=
        optField_emit rfl (fun w => ⟨_, rfl⟩) g3
      have o4 : optField [("inmemory", Yaml.null),
          ("maintenance", optToYaml Maintenance.toYaml mnt),
          ("cache", optToYaml Cache.toYaml cch),
          ("delete", optToYaml Delete.toYaml del),
          ("redirect", optToYaml Redirect.toYaml red)] "redirect"
          Redirect.fromYaml = .ok red :=
        optField_emit rfl (fun w => ⟨_, rfl⟩) g4
      have hfil : List.filter (fun kv => !storageKnownFields.contains kv.1)
          [("inmemory", Yaml.null),
           ("maintenance", optToYaml Maintenance.toYaml mnt),
           ("cache", optToYaml Cache.toYaml cch),
           ("delete", optToYaml Delete.toYaml del),
           ("redirect", optToYaml Redirect.toYaml red)]
          = [("inmemory", Yaml.null)] := rfl
      have f5b : StorageMedia.fromFlat [("inmemory", Yaml.null)] = .ok .InMemory := rfl
      unfold Storage.toYaml StorageMedia.toFlat Storage.fromYaml
      rw [show asMap (Yaml.map [("inmemory", Yaml.null),
          ("maintenance", optToYaml Maintenance.toYaml mnt),
          ("cache", optToYaml Cache.toYaml cch),
          ("delete", optToYaml Delete.toYaml del),
          ("redirect", optToYaml Redirect.toYaml red)]) "struct Storage"
        = Except.ok [("inmemory", Yaml.null),
          ("maintenance", optToYaml Maintenance.toYaml mnt),
          ("cache", optToYaml Cache.toYaml cch),
          ("delete", optToYaml Delete.toYaml del),
          ("redirect", optToYaml Redirect.toYaml red)] from rfl, ebind_ok]
      rw [o1, ebind_ok, o2, ebind_ok, o3, ebind_ok, o4, ebind_ok]
      rw [hfil, f5b, ebind_ok]

theorem Configuration_rt {y : Yaml} {c : Configuration}
    (h : Configuration.fromYaml y = .ok c) :
    Configuration.fromYaml (Configuration.toYaml c) = .ok c := by
  unfold Configuration.fromYaml at h
  obtain ⟨kvs, _, h⟩ := ebind_eq_ok.mp h
  obtain ⟨a1, h1, h⟩ := ebind_eq_ok.mp h
  obtain ⟨a2, h2, h⟩ := ebind_eq_ok.mp h
  obtain ⟨a3, h3, h⟩ := ebind_eq_ok.mp h
  obtain ⟨a4, h4, h⟩ := ebind_eq_ok.mp h
  obtain ⟨a5, h5, h⟩ := ebind_eq_ok.mp h
  obtain ⟨a6, h6, h⟩ := ebind_eq_ok.mp h
  obtain ⟨a7, h7, h⟩ := ebind_eq_ok.mp h
  obtain ⟨a8, h8, h⟩ := ebind_eq_ok.mp h
  obtain ⟨a9, h9, h⟩ := ebind_eq_ok.mp h
  obtain ⟨a10, h10, h⟩ := ebind_eq_ok.mp h
  obtain ⟨a11, h11, h⟩ := ebind_eq_ok.mp h
  obtain ⟨a12, h12, h⟩ := ebind_eq_ok.mp h
  obtain ⟨a13, h13, h⟩ := ebind_eq_ok.mp h
  obtain ⟨a14, h14, h⟩ := ebind_eq_ok.mp h
  obtain rfl : (⟨a1, a2, a3, a4, a5, a6, a7, a8, a9, a10, a11, a12, a13, a14⟩ :
      Configuration) = c := Except.ok.inj h
  have f2 : Log.fromYaml (Log.toYaml a2) = .ok a2 := by
    obtain ⟨y0, _, hp⟩ := reqField_ok h2
    exact Log_rt hp
  have f3 : Storage.fromYaml (Storage.toYaml a3) = .ok a3 := by
    rcases defField_ok h3 with ⟨y0, _, hp⟩ | rfl
    · exact Storage_rt hp
    · rfl
  have f4 : smapFromYaml Parameters.fromYaml (smapToYaml Parameters.toYaml a4)
      = .ok a4 := by
    rcases defField_ok h4 with ⟨y0, _, hp⟩ | rfl
    · exact smap_rt (fun _ _ ha => Parameters_rt ha) hp
    · rfl
  have f5 : smapFromYaml (vecFromYaml Middleware.fromYaml)
      (smapToYaml (fun ms => .seq (ms.map Middleware.toYaml)) a5) = .ok a5 := by
    rcases defField_ok h5 with ⟨y0, _, hp⟩ | rfl
    · exact smap_rt (fun _ ms hms => vec_rt (fun _ _ hm => Middleware_rt hm) hms) hp
    · rfl
  have f6 : Reporting.fromYaml (Reporting.toYaml a6) = .ok a6 := by
    rcases defField_ok h6 with ⟨y0, _, hp⟩ | rfl
    · exact Reporting_rt hp
    · rfl
  have f7 : Http.fromYaml (Http.toYaml a7) = .ok a7 := by
    rcases defField_ok h7 with ⟨y0, _, hp⟩ | rfl
    · exact Http_rt hp
    · rfl
  have f8 : Notifications.fromYaml (Notifications.toYaml a8) = .ok a8 := by
    rcases defField_ok h8 with ⟨y0, _, hp⟩ | rfl
    · exact Notifications_rt hp
    · rfl
  have f9 : Redis.fromYaml (Redis.toYaml a9) = .ok a9 := by
    rcases defField_ok h9 with ⟨y0, _, hp⟩ | rfl
    · exact Redis_rt hp
    · rfl
  have f10 : Health.fromYaml (Health.toYaml a10) = .ok a10 := by
    rcases defField_ok h10 with ⟨y0, _, hp⟩ | rfl
    · exact Health_rt hp
    · rfl
  have f11 : Proxy.fromYaml (Proxy.toYaml a11) = .ok a11 := by
    rcases defField_ok h11 with ⟨y0, _, hp⟩ | rfl
    · exact Proxy_rt hp
    · rfl
  have f12 : Compatibility.fromYaml (Compatibility.toYaml a12) = .ok a12 := by
    rcases defField_ok h12 with ⟨y0, _, hp⟩ | rfl
    · exact Compatibility_rt hp
    · rfl
  have f13 : Validation.fromYaml (Validation.toYaml a13) = .ok a13 := by
    rcases defField_ok h13 with ⟨y0, _, hp⟩ | rfl
    · exact Validation_rt hp
    · rfl
  have f14 : Policy.fromYaml (Policy.toYaml a14) = .ok a14 := by
    rcases defField_ok h14 with ⟨y0, _, hp⟩ | rfl
    · exact Policy_rt hp
    · rfl
  unfold Configuration.toYaml Configuration.fromYaml
  rw [show asMap (Yaml.map [("version", Yaml.str a1), ("log", Log.toYaml a2),
      ("storage", Storage.toYaml a3),
      ("auth", smapToYaml Parameters.toYaml a4),
      ("middleware",
        smapToYaml (fun ms => Yaml.seq (List.map Middleware.toYaml ms)) a5),
      ("reporting", Reporting.toYaml a6), ("http", Http.toYaml a7),
      ("notifications", Notifications.toYaml a8), ("redis", Redis.toYaml a9),
      ("health", Health.toYaml a10), ("proxy", Proxy.toYaml a11),
      ("compatibility", Compatibility.toYaml a12),
      ("validation", Validation.toYaml a13), ("policy", Policy.toYaml a14)]) "struct Configuration"
    = Except.ok [("version", Yaml.str a1), ("log", Log.toYaml a2),
      ("storage", Storage.toYaml a3),
      ("auth", smapToYaml Parameters.toYaml a4),
      ("middleware",
        smapToYaml (fun ms => Yaml.seq (List.map Middleware.toYaml ms)) a5),
      ("reporting", Reporting.toYaml a6), ("http", Http.toYaml a7),
      ("notifications", Notifications.toYaml a8), ("redis", Redis.toYaml a9),
      ("health", Health.toYaml a10), ("proxy", Proxy.toYaml a11),
      ("compatibility", Compatibility.toYaml a12),
      ("validation", Validation.toYaml a13), ("policy", Policy.toYaml a14)] from rfl, ebind_ok]
  rw [show reqField [("version", Yaml.str a1), ("log", Log.toYaml a2),
      ("storage", Storage.toYaml a3),
      ("auth", smapToYaml Parameters.toYaml a4),
      ("middleware",
        smapToYaml (fun ms => Yaml.seq (List.map Middleware.toYaml ms)) a5),
      ("reporting", Reporting.toYaml a6), ("http", Http.toYaml a7),
      ("notifications", Notifications.toYaml a8), ("redis", Redis.toYaml a9),
      ("health", Health.toYaml a10), ("proxy", Proxy.toYaml a11),
      ("compatibility", Compatibility.toYaml a12),
      ("validation", Validation.toYaml a13), ("policy", Policy.toYaml a14)] "version" strFromYaml
    = strFromYaml (Yaml.str a1) from rfl, strFromYaml_str, ebind_ok]
  rw [show reqField [("version", Yaml.str a1), ("log", Log.toYaml a2),
      ("storage", Storage.toYaml a3),
      ("auth", smapToYaml Parameters.toYaml a4),
      ("middleware",
        smapToYaml (fun ms => Yaml.seq (List.map Middleware.toYaml ms)) a5),
      ("reporting", Reporting.toYaml a6), ("http", Http.toYaml a7),
      ("notifications", Notifications.toYaml a8), ("redis", Redis.toYaml a9),
      ("health", Health.toYaml a10), ("proxy", Proxy.toYaml a11),
      ("compatibility", Compatibility.toYaml a12),
      ("validation", Validation.toYaml a13), ("policy", Policy.toYaml a14)] "log" Log.fromYaml
    = Log.fromYaml (Log.toYaml a2) from rfl, f2, ebind_ok]
  rw [show defField [("version", Yaml.str a1), ("log", Log.toYaml a2),
      ("storage", Storage.toYaml a3),
      ("auth", smapToYaml Parameters.toYaml a4),
      ("middleware",
        smapToYaml (fun ms => Yaml.seq (List.map Middleware.toYaml ms)) a5),
      ("reporting", Reporting.toYaml a6), ("http", Http.toYaml a7),
      ("notifications", Notifications.toYaml a8), ("redis", Redis.toYaml a9),
      ("health", Health.toYaml a10), ("proxy", Proxy.toYaml a11),
      ("compatibility", Compatibility.toYaml a12),
      ("validation", Validation.toYaml a13), ("policy", Policy.toYaml a14)] "storage" Storage.fromYaml Storage.default
    = Storage.fromYaml (Storage.toYaml a3) from rfl, f3, ebind_ok]
  rw [show defField [("version", Yaml.str a1), ("log", Log.toYaml a2),
      ("storage", Storage.toYaml a3),
      ("auth", smapToYaml Parameters.toYaml a4),
      ("middleware",
        smapToYaml (fun ms => Yaml.seq (List.map Middleware.toYaml ms)) a5),
      ("reporting", Reporting.toYaml a6), ("http", Http.toYaml a7),
      ("notifications", Notifications.toYaml a8), ("redis", Redis.toYaml a9),
      ("health", Health.toYaml a10), ("proxy", Proxy.toYaml a11),
      ("compatibility", Compatibility.toYaml a12),
      ("validation", Validation.toYaml a13), ("policy", Policy.toYaml a14)] "auth" (smapFromYaml Parameters.fromYaml) []
    = smapFromYaml Parameters.fromYaml (smapToYaml Parameters.toYaml a4)
    from rfl, f4, ebind_ok]
  rw [show defField [("version", Yaml.str a1), ("log", Log.toYaml a2),
      ("storage", Storage.toYaml a3),
      ("auth", smapToYaml Parameters.toYaml a4),
      ("middleware",
        smapToYaml (fun ms => Yaml.seq (List.map Middleware.toYaml ms)) a5),
      ("reporting", Reporting.toYaml a6), ("http", Http.toYaml a7),
      ("notifications", Notifications.toYaml a8), ("redis", Redis.toYaml a9),
      ("health", Health.toYaml a10), ("proxy", Proxy.toYaml a11),
      ("compatibility", Compatibility.toYaml a12),
      ("validation", Validation.toYaml a13), ("policy", Policy.toYaml a14)] "middleware" (smapFromYaml (vecFromYaml Middleware.fromYaml)) []
    = smapFromYaml (vecFromYaml Middleware.fromYaml)
        (smapToYaml (fun ms => Yaml.seq (List.map Middleware.toYaml ms)) a5)
    from rfl, f5, ebind_ok]
  rw [show defField [("version", Yaml.str a1), ("log", Log.toYaml a2),
      ("storage", Storage.toYaml a3),
      ("auth", smapToYaml Parameters.toYaml a4),
      ("middleware",
        smapToYaml (fun ms => Yaml.seq (List.map Middleware.toYaml ms)) a5),
      ("reporting", Reporting.toYaml a6), ("http", Http.toYaml a7),
      ("notifications", Notifications.toYaml a8), ("redis", Redis.toYaml a9),
      ("health", Health.toYaml a10), ("proxy", Proxy.toYaml a11),
      ("compatibility", Compatibility.toYaml a12),
      ("validation", Validation.toYaml a13), ("policy", Policy.toYaml a14)] "reporting" Reporting.fromYaml Reporting.default
    = Reporting.fromYaml (Reporting.toYaml a6) from rfl, f6, ebind_ok]
  rw [show defField [("version", Yaml.str a1), ("log", Log.toYaml a2),
      ("storage", Storage.toYaml a3),
      ("auth", smapToYaml Parameters.toYaml a4),
      ("middleware",
        smapToYaml (fun ms => Yaml.seq (List.map Middleware.toYaml ms)) a5),
      ("reporting", Reporting.toYaml a6), ("http", Http.toYaml a7),
      ("notifications", Notifications.toYaml a8), ("redis", Redis.toYaml a9),
      ("health", Health.toYaml a10), ("proxy", Proxy.toYaml a11),
      ("compatibility", Compatibility.toYaml a12),
      ("validation", Validation.toYaml a13), ("policy", Policy.toYaml a14)] "http" Http.fromYaml Http.default
    = Http.fromYaml (Http.toYaml a7) from rfl, f7, ebind_ok]
  rw [show defField [("version", Yaml.str a1), ("log", Log.toYaml a2),
      ("storage", Storage.toYaml a3),
      ("auth", smapToYaml Parameters.toYaml a4),
      ("middleware",
        smapToYaml (fun ms => Yaml.seq (List.map Middleware.toYaml ms)) a5),
      ("reporting", Reporting.toYaml a6), ("http", Http.toYaml a7),
      ("notifications", Notifications.toYaml a8), ("redis", Redis.toYaml a9),
      ("health", Health.toYaml a10), ("proxy", Proxy.toYaml a11),
      ("compatibility", Compatibility.toYaml a12),
      ("validation", Validation.toYaml a13), ("policy", Policy.toYaml a14)] "notifications" Notifications.fromYaml Notifications.default
    = Notifications.fromYaml (Notifications.toYaml a8) from rfl, f8, ebind_ok]
  rw [show defField [("version", Yaml.str a1), ("log", Log.toYaml a2),
      ("storage", Storage.toYaml a3),
      ("auth", smapToYaml Parameters.toYaml a4),
      ("middleware",
        smapToYaml (fun ms => Yaml.seq (List.map Middleware.toYaml ms)) a5),
      ("reporting", Reporting.toYaml a6), ("http", Http.toYaml a7),
      ("notifications", Notifications.toYaml a8), ("redis", Redis.toYaml a9),
      ("health", Health.toYaml a10), ("proxy", Proxy.toYaml a11),
      ("compatibility", Compatibility.toYaml a12),
      ("validation", Validation.toYaml a13), ("policy", Policy.toYaml a14)] "redis" Redis.fromYaml Redis.default
    = Redis.fromYaml (Redis.toYaml a9) from rfl, f9, ebind_ok]
  rw [show defField [("version", Yaml.str a1), ("log", Log.toYaml a2),
      ("storage", Storage.toYaml a3),
      ("auth", smapToYaml Parameters.toYaml a4),
      ("middleware",
        smapToYaml (fun ms => Yaml.seq (List.map Middleware.toYaml ms)) a5),
      ("reporting", Reporting.toYaml a6), ("http", Http.toYaml a7),
      ("notifications", Notifications.toYaml a8), ("redis", Redis.toYaml a9),
      ("health", Health.toYaml a10), ("proxy", Proxy.toYaml a11),
      ("compatibility", Compatibility.toYaml a12),
      ("validation", Validation.toYaml a13), ("policy", Policy.toYaml a14)] "health" Health.fromYaml Health.default
    = Health.fromYaml (Health.toYaml a10) from rfl, f10, ebind_ok]
  rw [show defField [("version", Yaml.str a1), ("log", Log.toYaml a2),
      ("storage", Storage.toYaml a3),
      ("auth", smapToYaml Parameters.toYaml a4),
      ("middleware",
        smapToYaml (fun ms => Yaml.seq (List.map Middleware.toYaml ms)) a5),
      ("reporting", Reporting.toYaml a6), ("http", Http.toYaml a7),
      ("notifications", Notifications.toYaml a8), ("redis", Redis.toYaml a9),
      ("health", Health.toYaml a10), ("proxy", Proxy.toYaml a11),
      ("compatibility", Compatibility.toYaml a12),
      ("validation", Validation.toYaml a13), ("policy", Policy.toYaml a14)] "proxy" Proxy.fromYaml Proxy.default
    = Proxy.fromYaml (Proxy.toYaml a11) from rfl, f11, ebind_ok]
  rw [show defField [("version", Yaml.str a1), ("log", Log.toYaml a2),
      ("storage", Storage.toYaml a3),
      ("auth", smapToYaml Parameters.toYaml a4),
      ("middleware",
        smapToYaml (fun ms => Yaml.seq (List.map Middleware.toYaml ms)) a5),
      ("reporting", Reporting.toYaml a6), ("http", Http.toYaml a7),
      ("notifications", Notifications.toYaml a8), ("redis", Redis.toYaml a9),
      ("health", Health.toYaml a10), ("proxy", Proxy.toYaml a11),
      ("compatibility", Compatibility.toYaml a12),
      ("validation", Validation.toYaml a13), ("policy", Policy.toYaml a14)] "compatibility" Compatibility.fromYaml Compatibility.default
    = Compatibility.fromYaml (Compatibility.toYaml a12) from rfl, f12, ebind_ok]
  rw [show defField [("version", Yaml.str a1), ("log", Log.toYaml a2),
      ("storage", Storage.toYaml a3),
      ("auth", smapToYaml Parameters.toYaml a4),
      ("middleware",
        smapToYaml (fun ms => Yaml.seq (List.map Middleware.toYaml ms)) a5),
      ("reporting", Reporting.toYaml a6), ("http", Http.toYaml a7),
      ("notifications", Notifications.toYaml a8), ("redis", Redis.toYaml a9),
      ("health", Health.toYaml a10), ("proxy", Proxy.toYaml a11),
      ("compatibility", Compatibility.toYaml a12),
      ("validation", Validation.toYaml a13), ("policy", Policy.toYaml a14)] "validation" Validation.fromYaml Validation.default
    = Validation.fromYaml (Validation.toYaml a13) from rfl, f13, ebind_ok]
  rw [show defField [("version", Yaml.str a1), ("log", Log.toYaml a2),
      ("storage", Storage.toYaml a3),
      ("auth", smapToYaml Parameters.toYaml a4),
      ("middleware",
        smapToYaml (fun ms => Yaml.seq (List.map Middleware.toYaml ms)) a5),
      ("reporting", Reporting.toYaml a6), ("http", Http.toYaml a7),
      ("notifications", Notifications.toYaml a8), ("redis", Redis.toYaml a9),
      ("health", Health.toYaml a10), ("proxy", Proxy.toYaml a11),
      ("compatibility", Compatibility.toYaml a12),
      ("validation", Validation.toYaml a13), ("policy", Policy.toYaml a14)] "policy" Policy.fromYaml Policy.default
    = Policy.fromYaml (Policy.toYaml a14) from rfl, f14, ebind_ok]

theorem ebind_err {ε α β : Type} (e : ε) (f : α → Except ε β) :
    ((Except.error e : Except ε α) >>= f) = .error e := rfl

theorem isOk_error {ε α : Type} (e : ε) : (Except.error e : Except ε α).isOk = false := rfl

theorem smapLookup_insert_self {α : Type} (m : List (String × α)) (k : String) (v : α) :
    smapLookup (smapInsert m k v) k = some v := by
  induction m with
  | nil => simp [smapInsert, smapLookup]
  | cons a t ih =>
      obtain ⟨k1, v1⟩ := a
      simp only [smapInsert]
      split
      · simp [smapLookup]
      · split
        · simp [smapLookup]
        · next h1 h2 =>
            have : k1 ≠ k := fun he => h2 he.symm
            simp [smapLookup, this, ih]

theorem smapLookup_insert_other {α : Type} {m : List (String × α)} {k k2 : String}
    {v2 : α} (h : k2 ≠ k) : smapLookup (smapInsert m k2 v2) k = smapLookup m k := by
  induction m with
  | nil => simp [smapInsert, smapLookup, h]
  | cons a t ih =>
      obtain ⟨k1, v1⟩ := a
      simp only [smapInsert]
      split
      · simp [smapLookup, h]
      · split
        · next h1 h2 => simp [smapLookup, h, h2 ▸ h]
        · simp [smapLookup, ih]

theorem smapFromList_preserve {α : Type} {p : Yaml → Except DeErr α} {k : String} :
    ∀ {t : List (String × Yaml)} {acc m : List (String × α)},
      smapFromList p t acc = .ok m → (∀ kv ∈ t, kv.1 ≠ k) →
      smapLookup m k = smapLookup acc k := by
  intro t
  induction t with
  | nil =>
      intro acc m h _
      obtain rfl : acc = m := Except.ok.inj h
      rfl
  | cons a t2 ih =>
      intro acc m h hne
      obtain ⟨k2, y2⟩ := a
      simp only [smapFromList] at h
      obtain ⟨v, _, h⟩ := ebind_eq_ok.mp h
      have hk2 : k2 ≠ k := hne (k2, y2) (by simp)
      rw [ih h (fun kv hkv => hne kv (by simp [hkv]))]
      exact smapLookup_insert_other hk2

theorem smapFromList_lookup {α : Type} {p : Yaml → Except DeErr α} :
    ∀ {kvs : List (String × Yaml)} {acc m : List (String × α)},
      (kvs.map Prod.fst).Nodup →
      smapFromList p kvs acc = .ok m →
      ∀ kv ∈ kvs, ∃ a, p kv.2 = .ok a ∧ smapLookup m kv.1 = some a := by
  intro kvs
  induction kvs with
  | nil => intro acc m _ _ kv hkv; simp at hkv
  | cons a t ih =>
      intro acc m hnd h kv hkv
      obtain ⟨k0, y0⟩ := a
      simp only [smapFromList] at h
      obtain ⟨v, hv, h⟩ := ebind_eq_ok.mp h
      simp only [List.map_cons, List.nodup_cons] at hnd
      rcases List.mem_cons.mp hkv with rfl | hkv2
      · refine ⟨v, hv, ?_⟩
        have hne2 : ∀ kv2 ∈ t, kv2.1 ≠ k0 := fun kv2 hkv2 he =>
          hnd.1 (he ▸ List.mem_map_of_mem Prod.fst hkv2)
        show smapLookup m k0 = some v
        rw [smapFromList_preserve h hne2]
        exact smapLookup_insert_self acc k0 v
      · exact ih hnd.2 h kv hkv2

theorem smapFromList_isOk {α : Type} {p : Yaml → Except DeErr α} :
    ∀ (kvs : List (String × Yaml)) (acc : List (String × α)),
      (∀ kv ∈ kvs, (p kv.2).isOk = true) →
      (smapFromList p kvs acc).isOk = true := by
  intro kvs
  induction kvs with
  | nil => intro acc _; rfl
  | cons a t ih =>
      intro acc hok
      obtain ⟨k0, y0⟩ := a
      have h0 : (p y0).isOk = true := hok (k0, y0) (by simp)
      simp only [smapFromList]
      cases hv : p y0 with
      | error e => rw [hv] at h0; exact absurd h0 (by simp [Except.isOk, Except.toBool])
      | ok v =>
          rw [ebind_ok]
          exact ih _ (fun kv hkv => hok kv (by simp [hkv]))

theorem discr_not_known {s : String} (h : storageMediaVariants.contains s = true) :
    storageKnownFields.contains s = false := by
  have h2 : s ∈ storageMediaVariants := List.elem_iff.mp h
  simp only [storageMediaVariants, List.mem_cons, List.not_mem_nil, or_false] at h2
  rcases h2 with rfl | rfl | rfl <;> rfl

theorem firstDiscr_filter (kvs : List (String × Yaml)) :
    List.find? (fun kv => storageMediaVariants.contains kv.1)
      (kvs.filter fun kv => !storageKnownFields.contains kv.1) = firstDiscr kvs := by
  induction kvs with
  | nil => rfl
  | cons a t ih =>
      simp only [firstDiscr] at ih ⊢
      cases hd : storageMediaVariants.contains a.1 with
      | true =>
          have hk := discr_not_known hd
          simp only [List.filter_cons, List.find?_cons, hk, hd, Bool.not_false,
                     eq_self_iff_true, if_true]
      | false =>
          cases hkn : storageKnownFields.contains a.1 with
          | true =>
              simp only [List.filter_cons, List.find?_cons, hkn, hd, Bool.not_true,
                         Bool.false_eq_true, if_false]
              exact ih
          | false =>
              simp only [List.filter_cons, List.find?_cons, hkn, hd, Bool.not_false,
                         eq_self_iff_true, if_true]
              exact ih

/-! # Claim theorems -/

/-- Claim C1, counterexample: the round-trip law as stated fails on the
document nanDoc, which carries a NaN float in an auth Parameters bag.
Parsing succeeds, re-parsing the serialization returns the identical
value, yet the structural equality of the program (derived PartialEq,
modelled by Configuration.beq) compares the round-tripped configuration
as unequal to itself, because f64 equality rejects NaN.  The assert_eq
of the round-trip test would therefore fail on this document. -/
theorem C1_roundtrip_counterexample :
    Configuration.fromYaml nanDoc = .ok nanConfig ∧
    Configuration.fromYaml (Configuration.toYaml nanConfig) = .ok nanConfig ∧
    Configuration.beq nanConfig nanConfig = false := by
  have h1 : Configuration.fromYaml nanDoc = .ok nanConfig := rfl
  exact ⟨h1, Configuration_rt h1, rfl⟩

/-- Claim C1 (amended): for every document d that parses to c,
parse(serialize(c)) succeeds and returns exactly c, hence serializing the
re-parsed value reproduces serialize(c) (idempotence); the PartialEq
comparison of the round-tripped value with c additionally holds whenever
c is PartialEq-reflexive, that is, whenever c contains no NaN float. -/
theorem C1_roundtrip_amended {d : Yaml} {c : Configuration}
    (h : Configuration.fromYaml d = .ok c) :
    Configuration.fromYaml (Configuration.toYaml c) = .ok c ∧
    (∀ c2, Configuration.fromYaml (Configuration.toYaml c) = .ok c2 →
      Configuration.toYaml c2 = Configuration.toYaml c) ∧
    (Configuration.beq c c = true →
      ∀ c2, Configuration.fromYaml (Configuration.toYaml c) = .ok c2 →
        Configuration.beq c c2 = true) := by
  have hrt := Configuration_rt h
  refine ⟨hrt, ?_, ?_⟩
  · intro c2 h2
    rw [hrt] at h2
    obtain rfl := Except.ok.inj h2
    rfl
  · intro hb c2 h2
    rw [hrt] at h2
    obtain rfl := Except.ok.inj h2
    exact hb

/-- Claim C1 witness: the amended round-trip theorem applied to the
minimal parseable document. -/
theorem C1_roundtrip_amended_witness :
    Configuration.fromYaml (Configuration.toYaml minimalOkConfig) = .ok minimalOkConfig :=
  (C1_roundtrip_amended (show Configuration.fromYaml minimalOkDoc
    = .ok minimalOkConfig from rfl)).1

/-- Claim C2, counterexample: parsing the empty document fails (whether
the empty input resolves to no node at all or to an empty mapping), and
so does a document carrying only the version key, because the version
and log fields carry no default and are required. -/
theorem C2_default_completeness_counterexample :
    (Configuration.fromYaml .null).isOk = false ∧
    (Configuration.fromYaml (.map [])).isOk = false ∧
    (Configuration.fromYaml (.map [("version", .str "0.1")])).isOk = false :=
  ⟨rfl, rfl, rfl⟩

/-- Claim C2 (amended): a document must supply version and log; the
smallest such document (version plus an empty log section) parses
successfully to a configuration in which every Duration-typed field
equals one second, every collection field is empty, and the storage
media is the filesystem variant with an empty options bag. -/
theorem C2_default_completeness_amended :
    Configuration.fromYaml minimalOkDoc = .ok minimalOkConfig ∧
    minimalOkConfig.http.drain_timeout = ⟨1, 0⟩ ∧
    minimalOkConfig.redis.dial_timeout = ⟨1, 0⟩ ∧
    minimalOkConfig.redis.read_timeout = ⟨1, 0⟩ ∧
    minimalOkConfig.redis.write_timeout = ⟨1, 0⟩ ∧
    minimalOkConfig.redis.pool.idle_timeout = ⟨1, 0⟩ ∧
    minimalOkConfig.health.stroage_driver.interval = ⟨1, 0⟩ ∧
    minimalOkConfig.auth = [] ∧
    minimalOkConfig.middleware = [] ∧
    minimalOkConfig.log.fields = [] ∧
    minimalOkConfig.log.hooks = [] ∧
    minimalOkConfig.http.headers = [] ∧
    minimalOkConfig.http.tls.client_CAs = [] ∧
    minimalOkConfig.health.file_checkers = [] ∧
    minimalOkConfig.health.http_checkers = [] ∧
    minimalOkConfig.health.tcp_checkers = [] ∧
    minimalOkConfig.notifications.endpoints = [] ∧
    minimalOkConfig.validation.manifests.urls.allow = [] ∧
    minimalOkConfig.policy.repository.classes = [] ∧
    minimalOkConfig.storage.media = .Filesystem [] :=
  ⟨rfl, rfl, rfl, rfl, rfl, rfl, rfl, rfl, rfl, rfl, rfl, rfl, rfl, rfl, rfl,
   rfl, rfl, rfl, rfl, rfl⟩

/-- Claim C3, counterexample: a storage section that is present but
contains no discriminator key does not parse to the filesystem default;
it fails with the no-variant error of the flattened enum (serde ignores
the default attribute on a flattened field). -/
theorem C3_storage_default_counterexample :
    Storage.fromYaml (.map []) = .error (.noVariant "StorageMedia") := rfl

/-- Claim C3 (amended): a present storage section with zero discriminator
keys fails to parse (the filesystem-with-empty-options default applies
only when the storage key is absent from the document, via the derived
Default); a section with exactly one discriminator key yields that
variant with its value parsed as a Parameter map, as in the s3 example. -/
theorem C3_storage_variant_amended :
    (∀ kvs : List (String × Yaml),
      (∀ kv ∈ kvs, storageMediaVariants.contains kv.1 = false) →
      (Storage.fromYaml (.map kvs)).isOk = false) ∧
    Storage.fromYaml (.map [("s3", .map [("bucket", .str "my-bucket"),
        ("region", .str "us-east-1")])])
      = .ok ⟨.S3 [("bucket", .String "my-bucket"),
             ("region", .String "us-east-1")], none, none, none, none⟩ ∧
    Storage.default = ⟨.Filesystem [], none, none, none, none⟩ := by
  refine ⟨?_, rfl, rfl⟩
  intro kvs hk
  unfold Storage.fromYaml
  simp only [asMap, ebind_ok]
  have hfind : List.find? (fun kv => storageMediaVariants.contains kv.1)
      (kvs.filter fun kv => !storageKnownFields.contains kv.1) = none := by
    rw [List.find?_eq_none]
    intro x hx hceq
    have hceq2 : storageMediaVariants.contains x.1 = true := hceq
    have h := hk x (List.mem_of_mem_filter hx)
    rw [h] at hceq2
    exact Bool.noConfusion hceq2
  have hmedia : StorageMedia.fromFlat
      (kvs.filter fun kv => !storageKnownFields.contains kv.1)
      = .error (.noVariant "StorageMedia") := by
    unfold StorageMedia.fromFlat
    rw [hfind]
  cases h1 : optField kvs "maintenance" Maintenance.fromYaml with
  | error e => rw [ebind_err]; rfl
  | ok v1 =>
      rw [ebind_ok]
      cases h2 : optField kvs "cache" Cache.fromYaml with
      | error e => rw [ebind_err]; rfl
      | ok v2 =>
          rw [ebind_ok]
          cases h3 : optField kvs "delete" Delete.fromYaml with
          | error e => rw [ebind_err]; rfl
          | ok v3 =>
              rw [ebind_ok]
              cases h4 : optField kvs "redirect" Redirect.fromYaml with
              | error e => rw [ebind_err]; rfl
              | ok v4 =>
                  rw [ebind_ok, hmedia, ebind_err]
                  rfl

/-- Claim C3 witness: the amended theorem applied to a storage section
containing only a cache key and no discriminator. -/
theorem C3_storage_variant_witness :
    (Storage.fromYaml (.map [("cache", Yaml.map [])])).isOk = false :=
  C3_storage_variant_amended.1 [("cache", Yaml.map [])] (by decide)

/-- Claim C4: untagged Parameter resolution tries Integer, Double,
String, Boolean, Null in declaration order and takes the first match: an
in-range integer scalar always becomes Integer, the unquoted 42 becomes
Integer 42, the quoted 42 becomes the string variant, true becomes
Boolean, and an explicit null becomes Null. -/
theorem C4_untagged_priority :
    (∀ n : Int, -(2 ^ 63) ≤ n → n < 2 ^ 63 →
      Parameter.fromYaml (.int n) = .ok (.Integer n)) ∧
    Parameter.fromYaml (.int 42) = .ok (.Integer 42) ∧
    Parameter.fromYaml (.str "42") = .ok (.String "42") ∧
    Parameter.fromYaml (.bool true) = .ok (.Boolean true) ∧
    Parameter.fromYaml .null = .ok .Null := by
  refine ⟨?_, rfl, rfl, rfl, rfl⟩
  intro n h1 h2
  simp only [Parameter.fromYaml]
  rw [if_pos ⟨h1, h2⟩]

/-- Claim C4 witness: the universal Integer clause applied at 7. -/
theorem C4_untagged_priority_witness :
    Parameter.fromYaml (.int 7) = .ok (.Integer 7) :=
  C4_untagged_priority.1 7 (by decide) (by decide)

/-- Claim C5: serializing any Duration (u64 seconds, sub-second
nanoseconds) produces exactly the two-component text seconds-s
space-nanoseconds-ns, and parsing that text yields the same Duration. -/
theorem C5_duration_roundtrip (d : Duration) (h1 : d.nanos < 1000000000)
    (h2 : d.secs < 2 ^ 64) :
    Duration.serializeStr d = natToDec d.secs ++ "s " ++ natToDec d.nanos ++ "ns" ∧
    durationFromYaml (.str (Duration.serializeStr d)) = .ok d :=
  ⟨rfl, duration_serialize_parse h1 h2⟩

/-- Claim C5 witness: the round trip at three seconds and five hundred
nanoseconds. -/
theorem C5_duration_roundtrip_witness :
    durationFromYaml (.str (Duration.serializeStr ⟨3, 500⟩)) = .ok ⟨3, 500⟩ :=
  (C5_duration_roundtrip ⟨3, 500⟩ (by decide) (by decide)).2

/-- Claim C6: the duration grammar parses 1s to one second and zero
nanoseconds and 1h30m to 5400 seconds; abc fails, and the visitor turns
the failure into the single custom error of the source (the
InvalidDuration case of the specification); an absent Duration field is
filled by the default of one second without the parser running, and that
default equals the humantime parse of 1s. -/
theorem C6_duration_grammar :
    humantimeFromStr "1s" = .ok ⟨1, 0⟩ ∧
    humantimeFromStr "1h30m" = .ok ⟨5400, 0⟩ ∧
    (humantimeFromStr "abc").isOk = false ∧
    Duration.visitStr "abc" = .error (.custom "cannot parse the duration") ∧
    defField ([] : List (String × Yaml)) "draintimeout" durationFromYaml
      Duration.default = .ok Duration.default ∧
    Duration.default = ⟨1, 0⟩ ∧
    humantimeFromStr "1s" = .ok Duration.default :=
  ⟨rfl, rfl, rfl, rfl, rfl, rfl, rfl⟩

/-- Claim C7, counterexample: with both filesystem and s3 present, the
selected variant is whichever discriminator appears first in the
document, not a fixed key priority: the same key set in the two orders
yields the two different variants. -/
theorem C7_discriminator_order_counterexample :
    Storage.fromYaml (.map [("s3", .map []), ("filesystem", .map [])])
      = .ok ⟨.S3 [], none, none, none, none⟩ ∧
    Storage.fromYaml (.map [("filesystem", .map []), ("s3", .map [])])
      = .ok ⟨.Filesystem [], none, none, none, none⟩ ∧
    (StorageMedia.S3 [] : StorageMedia) ≠ .Filesystem [] :=
  ⟨rfl, rfl, by decide⟩

/-- Claim C7 (amended): with more than one discriminator key present the
flattened enum takes the first discriminator in document order of the
section keys (no UnresolvableVariant-style error is ever raised for the
multiplicity itself, as the three-discriminator example shows); whenever
such a section parses, the selected variant is named by that first
discriminator key. -/
theorem C7_discriminator_order_amended :
    (∀ (kvs : List (String × Yaml)) (st : Storage) (k : String) (v : Yaml),
      Storage.fromYaml (.map kvs) = .ok st →
      firstDiscr kvs = some (k, v) →
      st.media.discrKey = k) ∧
    (Storage.fromYaml (.map [("s3", .map []), ("filesystem", .map []),
      ("inmemory", .null)])).isOk = true := by
  refine ⟨?_, rfl⟩
  intro kvs st k v h hfd
  unfold Storage.fromYaml at h
  obtain ⟨kvs2, hk2, h⟩ := ebind_eq_ok.mp h
  obtain rfl : kvs = kvs2 := Except.ok.inj hk2
  obtain ⟨mnt, _, h⟩ := ebind_eq_ok.mp h
  obtain ⟨cch, _, h⟩ := ebind_eq_ok.mp h
  obtain ⟨del, _, h⟩ := ebind_eq_ok.mp h
  obtain ⟨red, _, h⟩ := ebind_eq_ok.mp h
  obtain ⟨med, h5, h⟩ := ebind_eq_ok.mp h
  obtain rfl : (⟨med, mnt, cch, del, red⟩ : Storage) = st := Except.ok.inj h
  unfold StorageMedia.fromFlat at h5
  rw [firstDiscr_filter, hfd] at h5
  have hc0 := List.find?_some
    (show List.find? (fun kv => storageMediaVariants.contains kv.1) kvs
      = some (k, v) from hfd)
  have hc : storageMediaVariants.contains k = true := hc0
  by_cases hf : k = "filesystem"
  · subst hf
    have h6 : Except.map StorageMedia.Filesystem (smapFromYaml Parameter.fromYaml v)
        = .ok med := h5
    obtain ⟨mm, _, rfl⟩ := emap_eq_ok.mp h6
    rfl
  · by_cases hs : k = "s3"
    · subst hs
      have h6 : Except.map StorageMedia.S3 (smapFromYaml Parameter.fromYaml v)
          = .ok med := h5
      obtain ⟨mm, _, rfl⟩ := emap_eq_ok.mp h6
      rfl
    · have hmem : k ∈ ["filesystem", "s3", "inmemory"] := List.elem_iff.mp hc
      have hi : k = "inmemory" := by
        rcases List.mem_cons.mp hmem with rfl | hm2
        · exact absurd rfl hf
        rcases List.mem_cons.mp hm2 with rfl | hm3
        · exact absurd rfl hs
        rcases List.mem_cons.mp hm3 with rfl | hm4
        · rfl
        · exact absurd hm4 (List.not_mem_nil k)
      subst hi
      cases v with
      | null =>
          obtain rfl : StorageMedia.InMemory = med := Except.ok.inj h5
          rfl
      | bool b => exact Except.noConfusion h5
      | int n => exact Except.noConfusion h5
      | float x => exact Except.noConfusion h5
      | str s => exact Except.noConfusion h5
      | seq xs => exact Except.noConfusion h5
      | map kvs2 => exact Except.noConfusion h5

/-- Claim C7 witness: the amended theorem applied to a section listing s3
before filesystem. -/
theorem C7_discriminator_order_witness :
    StorageMedia.discrKey
      (Storage.media ⟨.S3 [], none, none, none, none⟩) = "s3" :=
  C7_discriminator_order_amended.1 [("s3", .map []), ("filesystem", .map [])]
    ⟨.S3 [], none, none, none, none⟩ "s3" (.map []) rfl rfl

/-- Claim C8: a Parameters bag accepts every key of its source mapping
(unknown keys included): when every value is an acceptable scalar the
parse succeeds; when it succeeds, every source key with its parsed value
is present in the resulting bag, and the bag survives a parse, serialize,
parse cycle unchanged.  Source mappings are well-formed YAML, so their
keys are distinct. -/
theorem C8_parameters_capture (kvs : List (String × Yaml))
    (hnd : (kvs.map Prod.fst).Nodup) :
    ((∀ kv ∈ kvs, (Parameter.fromYaml kv.2).isOk = true) →
      (Parameters.fromYaml (.map kvs)).isOk = true) ∧
    (∀ p : Parameters, Parameters.fromYaml (.map kvs) = .ok p →
      (∀ kv ∈ kvs, ∃ a, Parameter.fromYaml kv.2 = .ok a ∧
        smapLookup p.parameters kv.1 = some a) ∧
      Parameters.fromYaml (Parameters.toYaml p) = .ok p) := by
  constructor
  · intro hok
    simp only [Parameters.fromYaml, smapFromYaml]
    have := smapFromList_isOk kvs [] hok
    cases hv : smapFromList Parameter.fromYaml kvs [] with
    | error e => rw [hv] at this; exact absurd this (by simp [Except.isOk, Except.toBool])
    | ok m => rfl
  · intro p hp
    obtain ⟨m, hm, rfl⟩ := emap_eq_ok.mp hp
    simp only [Parameters.fromYaml, smapFromYaml] at hm ⊢
    refine ⟨smapFromList_lookup hnd hm, ?_⟩
    have := Parameters_rt (show Parameters.fromYaml (.map kvs) = .ok ⟨m⟩ from
      by simp only [Parameters.fromYaml, smapFromYaml, hm]; rfl)
    simpa [Parameters.fromYaml] using this

/-- Claim C8 witness: the capture and round trip applied to a bag with
one undeclared key. -/
theorem C8_parameters_capture_witness :
    (Parameters.fromYaml (.map [("custom-key", .int 1)])).isOk = true :=
  (C8_parameters_capture [("custom-key", .int 1)] (by decide)).1 (by decide)

/-- Claim C9: Parameter equality requires the same active variant, so an
Integer never equals a Double whatever the two payloads denote (no
implicit numeric widening during comparison). -/
theorem C9_no_numeric_widening (n : Int) (x : F64) :
    Parameter.beq (.Integer n) (.Double x) = false ∧
    Parameter.beq (.Double x) (.Integer n) = false :=
  ⟨rfl, rfl⟩

/-- Claim C10: version and log are the two top-level fields without a
default, so a document whose top-level mapping lacks either key fails to
parse. -/
theorem C10_version_log_required (kvs : List (String × Yaml))
    (h : lookupFirst kvs "version" = none ∨ lookupFirst kvs "log" = none) :
    (Configuration.fromYaml (.map kvs)).isOk = false := by
  unfold Configuration.fromYaml
  simp only [asMap, ebind_ok]
  rcases h with hv | hl
  · simp only [reqField, hv, ebind_err]
    rfl
  · cases hv2 : reqField kvs "version" strFromYaml with
    | error e => rw [ebind_err]; rfl
    | ok ver =>
        rw [ebind_ok]
        have : reqField kvs "log" Log.fromYaml = .error (.missingField "log") := by
          simp only [reqField, hl]
        rw [this, ebind_err]
        rfl

/-- Claim C10 witness: the empty mapping lacks both keys. -/
theorem C10_version_log_required_witness :
    (Configuration.fromYaml (.map [])).isOk = false :=
  C10_version_log_required [] (.inl rfl)

end NianjiaRegistry
